import Mathlib

/-!
Shallow embedding of a two-player realtime matchmaking / round-timing game
server.  The repository has two near-duplicate variants of the server:

* namespace `Part0`  embeds src/unnamed/part_000  (waitingPlayer slot, scores
  stored on the room, an interval timer handle stored in room.timer);
* namespace `SrvJs`  embeds src/server.js  (queue array, scores stored on each
  socket user, no timer bookkeeping at all).

Sockets are modelled by numeric identifiers into an explicit socket table
(JS mutates fields of shared socket objects; here the table carries those
mutable fields).  The JS room key string room_A_B is modelled by the pair
(A, B), which is faithful because decimal socket identifiers contain no
underscore, making the string encoding injective.  Math.random based draws
are modelled by an oracle rng : Nat -> Nat consumed at an explicit index:
Math.floor(Math.random() * b) becomes rng i % b, which ranges over [0, b)
exactly as the JS expression does.  setTimeout / setInterval callbacks are
modelled as pending-timer records in the state; firing a pending timer runs
the corresponding callback body.
-/

/-- Association-list update, modelling JS object key assignment. -/
def setAL {α β : Type} [DecidableEq α] : List (α × β) → α → β → List (α × β)
  | [], k, v => [(k, v)]
  | (k', v') :: rest, k, v =>
      if k' = k then (k, v) :: rest else (k', v') :: setAL rest k v

/-- Association-list removal, modelling the JS delete operator. -/
def delAL {α β : Type} [DecidableEq α] : List (α × β) → α → List (α × β)
  | [], _ => []
  | (k', v) :: rest, k => if k' = k then delAL rest k else (k', v) :: delAL rest k

/-- Association-list lookup, modelling JS object key access. -/
def lookupAL {α β : Type} [DecidableEq α] : List (α × β) → α → Option β
  | [], _ => none
  | (k', v) :: rest, k => if k' = k then some v else lookupAL rest k

/-- Remove the first occurrence of an element, modelling indexOf + splice. -/
def removeFirst {α : Type} [DecidableEq α] : List α → α → List α
  | [], _ => []
  | x :: xs, a => if x = a then xs else x :: removeFirst xs a

/-- Models Math.floor(Math.random() * bound) via the random oracle. -/
def randFloor (rng : Nat → Nat) (i bound : Nat) : Nat := rng i % bound

/-- Catalog size bound, DB_LENGTH / DECK_SIZE = 300 in both variants. -/
def DB_LENGTH : Nat := 300

/-- generateDeck: size independent draws of indices in [0, DB_LENGTH).
The oracle is consumed starting at index start, one draw per entry. -/
def generateDeck (rng : Nat → Nat) (start size : Nat) : List Nat :=
  (List.range size).map (fun i => randFloor rng (start + i) DB_LENGTH)

namespace Part0

abbrev SockId := Nat

/-- Room key room_A_B, as the pair of the two socket identifiers. -/
abbrev RoomId := Nat × Nat

structure User where
  uid : Nat
  name : String
  avatar : String
deriving DecidableEq

structure Scores where
  p1 : Int
  p2 : Int
deriving DecidableEq

/-- The room object built in findMatch of part_000 (no phase field there). -/
structure Room where
  id : RoomId
  p1 : SockId
  p2 : SockId
  scores : Scores
  round : Nat
  maxRounds : Nat
  deck : List Nat
  timer : Option Nat
deriving DecidableEq

/-- Mutable fields the JS code stores on a socket object. -/
structure Sock where
  user : Option User
  roomId : Option RoomId
deriving DecidableEq

inductive TimerKind : Type
  /-- setTimeout(() => startRound(roomId), 3000) scheduled by findMatch. -/
  | lobby
  /-- the setInterval countdown stored in room.timer; when its count hits
  zero it clears itself and calls revealRound. -/
  | interval
  /-- setTimeout(() => startRound(roomId), 8000) scheduled by revealRound. -/
  | reveal
deriving DecidableEq

structure Timer where
  tid : Nat
  kind : TimerKind
  roomId : RoomId
deriving DecidableEq

inductive Ev : Type
  | waitingOpponent (dest : SockId)
  | matchFound (room : RoomId) (p1 p2 : Option User) (ridPayload : Option RoomId)
  | roundStart (room : RoomId) (round songIndex seekTime duration : Nat)
  | roundReveal (room : RoomId)
  | scoreUpdate (room : RoomId) (scores : Scores)
  | gameOver (room : RoomId) (scores : Scores)
  | opponentLeft (room : RoomId)
deriving DecidableEq

structure St where
  rooms : List (RoomId × Room)
  waitingPlayer : Option SockId
  sockets : List (SockId × Sock)
  joined : List (RoomId × SockId)
  timers : List Timer
  nextTimer : Nat
  randIdx : Nat
  events : List Ev

def init : St :=
  { rooms := [], waitingPlayer := none, sockets := [], joined := [],
    timers := [], nextTimer := 0, randIdx := 0, events := [] }

def emit (s : St) (e : Ev) : St := { s with events := s.events ++ [e] }

def getSock (s : St) (sid : SockId) : Sock :=
  (lookupAL s.sockets sid).getD { user := none, roomId := none }

def updSock (s : St) (sid : SockId) (f : Sock → Sock) : St :=
  { s with sockets := setAL s.sockets sid (f (getSock s sid)) }

/-- socket.roomId of a socket. -/
def roomIdOf (s : St) (sid : SockId) : Option RoomId := (getSock s sid).roomId

/-- Schedule a fresh pending timer. -/
def addTimer (s : St) (k : TimerKind) (rid : RoomId) : St :=
  { s with timers := s.timers ++ [{ tid := s.nextTimer, kind := k, roomId := rid }],
           nextTimer := s.nextTimer + 1 }

/-- findMatch of part_000. -/
def findMatch (rng : Nat → Nat) (s : St) (sid : SockId) : St :=
  match s.waitingPlayer with
  | some opp =>
      let rid : RoomId := (opp, sid)
      let s1 := { s with waitingPlayer := none,
                         joined := (rid, sid) :: (rid, opp) :: s.joined }
      let s2 := updSock (updSock s1 sid (fun sk => { sk with roomId := some rid }))
                        opp (fun sk => { sk with roomId := some rid })
      let room : Room :=
        { id := rid, p1 := opp, p2 := sid, scores := { p1 := 0, p2 := 0 },
          round := 0, maxRounds := 15,
          deck := generateDeck rng s2.randIdx 15, timer := none }
      let s3 := { s2 with rooms := setAL s2.rooms rid room,
                          randIdx := s2.randIdx + 15 }
      let s4 := emit s3 (.matchFound rid (getSock s3 opp).user (getSock s3 sid).user none)
      addTimer s4 .lobby rid
  | none =>
      emit { s with waitingPlayer := some sid } (.waitingOpponent sid)

/-- identify handler of part_000: record the profile, then findMatch. -/
def identify (rng : Nat → Nat) (s : St) (sid : SockId) (u : User) : St :=
  findMatch rng (updSock s sid (fun sk => { sk with user := some u })) sid

/-- submit_score handler of part_000: guarded by socket.roomId and registry
lookup; credits p1 when the submitter is room.p1 and p2 otherwise. -/
def submitScore (s : St) (sid : SockId) (points : Int) : St :=
  match roomIdOf s sid with
  | none => s
  | some rid =>
    match lookupAL s.rooms rid with
    | none => s
    | some room =>
      let scores :=
        if sid = room.p1 then { room.scores with p1 := room.scores.p1 + points }
        else { room.scores with p2 := room.scores.p2 + points }
      let s1 := { s with rooms := setAL s.rooms rid { room with scores := scores } }
      emit s1 (.scoreUpdate rid scores)

/-- endGame of part_000. -/
def endGame (s : St) (rid : RoomId) : St :=
  match lookupAL s.rooms rid with
  | none => s
  | some room =>
    let s1 := emit s (.gameOver rid room.scores)
    let keep : RoomId × SockId → Bool :=
      fun p => decide (¬(p.1 = rid ∧ (p.2 = room.p1 ∨ p.2 = room.p2)))
    let s2 := { s1 with joined := s1.joined.filter keep }
    { s2 with rooms := delAL s2.rooms rid }

/-- startRound of part_000: registry-guarded; ends the game once the round
counter has reached maxRounds, otherwise increments it, emits round_start
and stores a fresh interval countdown in room.timer. -/
def startRound (rng : Nat → Nat) (s : St) (rid : RoomId) : St :=
  match lookupAL s.rooms rid with
  | none => s
  | some room =>
    if room.maxRounds ≤ room.round then endGame s rid
    else
      let round1 := room.round + 1
      let songIndex := room.deck.getD (round1 - 1) 0
      let seekTime := randFloor rng s.randIdx 11 + 40
      let tid := s.nextTimer
      let s1 := { s with randIdx := s.randIdx + 1,
                         rooms := setAL s.rooms rid
                           { room with round := round1, timer := some tid } }
      let s2 := emit s1 (.roundStart rid round1 songIndex seekTime 20)
      { s2 with timers := s2.timers ++ [{ tid := tid, kind := .interval, roomId := rid }],
                nextTimer := tid + 1 }

/-- revealRound of part_000: registry-guarded; emits round_reveal and
schedules the 8 second timeout back into startRound. -/
def revealRound (s : St) (rid : RoomId) : St :=
  match lookupAL s.rooms rid with
  | none => s
  | some _ =>
    addTimer (emit s (.roundReveal rid)) .reveal rid

/-- handleDisconnect of part_000: clear the waiting slot if the leaver was
waiting; if the leaver is routed to a registered room, broadcast
opponent_left, clearInterval the stored room.timer and delete the room. -/
def handleDisconnect (s : St) (sid : SockId) : St :=
  let s0 := if s.waitingPlayer = some sid then { s with waitingPlayer := none } else s
  match roomIdOf s0 sid with
  | none => s0
  | some rid =>
    match lookupAL s0.rooms rid with
    | none => s0
    | some room =>
      let s1 := emit s0 (.opponentLeft rid)
      let s2 :=
        match room.timer with
        | some tid => { s1 with timers := s1.timers.filter (fun t => decide (t.tid ≠ tid)) }
        | none => s1
      { s2 with rooms := delAL s2.rooms rid }

/-- Fire a pending timer: the timer is consumed and its callback body runs.
The interval countdown clears itself before calling revealRound, which is
what consuming the pending record models. -/
def fireTimer (rng : Nat → Nat) (s : St) (t : Timer) : St :=
  if t ∈ s.timers then
    let s1 := { s with timers := s.timers.filter (fun t' => decide (t' ≠ t)) }
    match t.kind with
    | .lobby => startRound rng s1 t.roomId
    | .interval => revealRound s1 t.roomId
    | .reveal => startRound rng s1 t.roomId
  else s

/-- Inbound stimuli: client events and timer expirations. -/
inductive Msg : Type
  | identify (sid : SockId) (u : User)
  | disconnect (sid : SockId)
  | submit (sid : SockId) (points : Int)
  | fire (t : Timer)
deriving DecidableEq

def stepMsg (rng : Nat → Nat) (s : St) : Msg → St
  | .identify sid u => identify rng s sid u
  | .disconnect sid => handleDisconnect s sid
  | .submit sid pts => submitScore s sid pts
  | .fire t => fireTimer rng s t

def run (rng : Nat → Nat) (s : St) : List Msg → St
  | [] => s
  | m :: ms => run rng (stepMsg rng s m) ms

end Part0

namespace SrvJs

abbrev SockId := Nat

abbrev RoomId := Nat × Nat

/-- In server.js the cumulative score lives on socket.user. -/
structure User where
  uid : Nat
  name : String
  avatar : String
  score : Int
deriving DecidableEq

/-- Phase enumeration of the spec; server.js only ever writes lobby. -/
inductive Phase : Type
  | lobby
  | guessing
  | reveal
  | ended
deriving DecidableEq

/-- The room object built in matchmake of server.js. -/
structure Room where
  id : RoomId
  p1 : SockId
  p2 : SockId
  round : Nat
  maxRounds : Nat
  phase : Phase
  deck : List Nat
deriving DecidableEq

structure Sock where
  user : Option User
  roomId : Option RoomId
deriving DecidableEq

inductive TimerKind : Type
  /-- setTimeout(() => startGameLoop(roomId), 3000) scheduled by matchmake. -/
  | gameLoopStart
  /-- the 20 second setTimeout scheduled by nextRound. -/
  | roundEnd
  /-- the 8 second setTimeout scheduled inside the 20 second callback. -/
  | revealEnd
deriving DecidableEq

structure Timer where
  tid : Nat
  kind : TimerKind
  roomId : RoomId
deriving DecidableEq

inductive Ev : Type
  | waitingOpponent (dest : SockId)
  | matchFound (room : RoomId) (p1 p2 : Option User) (ridPayload : Option RoomId)
  | roundStart (room : RoomId) (round songIndex seekTime duration : Nat)
  | roundReveal (room : RoomId)
  | scoreUpdate (room : RoomId) (p1 p2 : Int)
  | gameOver (room : RoomId) (p1 p2 : Int)
  | opponentLeft (room : RoomId)
deriving DecidableEq

structure St where
  rooms : List (RoomId × Room)
  queue : List SockId
  sockets : List (SockId × Sock)
  joined : List (RoomId × SockId)
  timers : List Timer
  nextTimer : Nat
  randIdx : Nat
  events : List Ev

def init : St :=
  { rooms := [], queue := [], sockets := [], joined := [],
    timers := [], nextTimer := 0, randIdx := 0, events := [] }

def emit (s : St) (e : Ev) : St := { s with events := s.events ++ [e] }

def getSock (s : St) (sid : SockId) : Sock :=
  (lookupAL s.sockets sid).getD { user := none, roomId := none }

def updSock (s : St) (sid : SockId) (f : Sock → Sock) : St :=
  { s with sockets := setAL s.sockets sid (f (getSock s sid)) }

def roomIdOf (s : St) (sid : SockId) : Option RoomId := (getSock s sid).roomId

/-- socket.user.score, as read by the score_update and game_over emits. -/
def scoreOf (s : St) (sid : SockId) : Int :=
  match (getSock s sid).user with
  | some u => u.score
  | none => 0

def addTimer (s : St) (k : TimerKind) (rid : RoomId) : St :=
  { s with timers := s.timers ++ [{ tid := s.nextTimer, kind := k, roomId := rid }],
           nextTimer := s.nextTimer + 1 }

/-- matchmake of server.js: queue.pop() takes the last array entry. -/
def matchmake (rng : Nat → Nat) (s : St) (sid : SockId) : St :=
  match s.queue.getLast? with
  | some opp =>
      let rid : RoomId := (opp, sid)
      let s1 := { s with queue := s.queue.dropLast,
                         joined := (rid, sid) :: (rid, opp) :: s.joined }
      let s2 := updSock (updSock s1 sid (fun sk => { sk with roomId := some rid }))
                        opp (fun sk => { sk with roomId := some rid })
      let room : Room :=
        { id := rid, p1 := opp, p2 := sid, round := 0, maxRounds := 15,
          phase := .lobby, deck := generateDeck rng s2.randIdx 15 }
      let s3 := { s2 with rooms := setAL s2.rooms rid room,
                          randIdx := s2.randIdx + 15 }
      let s4 := emit s3 (.matchFound rid (getSock s3 opp).user (getSock s3 sid).user (some rid))
      addTimer s4 .gameLoopStart rid
  | none =>
      emit { s with queue := s.queue ++ [sid] } (.waitingOpponent sid)

/-- identify handler of server.js: socket.user = userData and
socket.user.score = 0, then matchmake. -/
def identify (rng : Nat → Nat) (s : St) (sid : SockId) (uid : Nat) (name avatar : String) : St :=
  matchmake rng
    (updSock s sid (fun sk =>
      { sk with user := some { uid := uid, name := name, avatar := avatar, score := 0 } }))
    sid

/-- submit_score handler of server.js: guarded by socket.roomId and registry
lookup; adds points to the submitting socket.user.score, then broadcasts the
scores read off the room participants. -/
def submitScore (s : St) (sid : SockId) (points : Int) : St :=
  match roomIdOf s sid with
  | none => s
  | some rid =>
    match lookupAL s.rooms rid with
    | none => s
    | some room =>
      let s1 := updSock s sid (fun sk =>
        { sk with user := sk.user.map (fun u => { u with score := u.score + points }) })
      emit s1 (.scoreUpdate rid (scoreOf s1 room.p1) (scoreOf s1 room.p2))

/-- The nextRound closure of startGameLoop in server.js.  The closure
captures the room object; callers reach it only behind a registry lookup,
which the lookup here mirrors. -/
def nextRound (rng : Nat → Nat) (s : St) (rid : RoomId) : St :=
  match lookupAL s.rooms rid with
  | none => s
  | some room =>
    if room.maxRounds ≤ room.round then
      let s1 := emit s (.gameOver rid (scoreOf s room.p1) (scoreOf s room.p2))
      { s1 with rooms := delAL s1.rooms rid }
    else
      let round1 := room.round + 1
      let songIndex := room.deck.getD (round1 - 1) 0
      let seekTime := randFloor rng s.randIdx 11 + 40
      let s1 := { s with randIdx := s.randIdx + 1,
                         rooms := setAL s.rooms rid { room with round := round1 } }
      let s2 := emit s1 (.roundStart rid round1 songIndex seekTime 20)
      addTimer s2 .roundEnd rid

/-- startGameLoop of server.js: registry-guarded entry into nextRound. -/
def startGameLoop (rng : Nat → Nat) (s : St) (rid : RoomId) : St :=
  match lookupAL s.rooms rid with
  | none => s
  | some _ => nextRound rng s rid

/-- disconnect handler of server.js: splice the socket out of the queue;
if routed to a registered room, broadcast opponent_left and delete the
room.  No timer is cancelled anywhere in this variant. -/
def handleDisconnect (s : St) (sid : SockId) : St :=
  let s0 := { s with queue := removeFirst s.queue sid }
  match roomIdOf s0 sid with
  | none => s0
  | some rid =>
    match lookupAL s0.rooms rid with
    | none => s0
    | some _ =>
      let s1 := emit s0 (.opponentLeft rid)
      { s1 with rooms := delAL s1.rooms rid }

/-- Fire a pending timer: consumed, then its callback body runs.  The 20
second and 8 second callbacks both begin with the rooms[roomId] guard. -/
def fireTimer (rng : Nat → Nat) (s : St) (t : Timer) : St :=
  if t ∈ s.timers then
    let s1 := { s with timers := s.timers.filter (fun t' => decide (t' ≠ t)) }
    match t.kind with
    | .gameLoopStart => startGameLoop rng s1 t.roomId
    | .roundEnd =>
      match lookupAL s1.rooms t.roomId with
      | none => s1
      | some _ => addTimer (emit s1 (.roundReveal t.roomId)) .revealEnd t.roomId
    | .revealEnd =>
      match lookupAL s1.rooms t.roomId with
      | none => s1
      | some _ => nextRound rng s1 t.roomId
  else s

inductive Msg : Type
  | identify (sid : SockId) (uid : Nat) (name avatar : String)
  | disconnect (sid : SockId)
  | submit (sid : SockId) (points : Int)
  | fire (t : Timer)
deriving DecidableEq

def stepMsg (rng : Nat → Nat) (s : St) : Msg → St
  | .identify sid uid name avatar => identify rng s sid uid name avatar
  | .disconnect sid => handleDisconnect s sid
  | .submit sid pts => submitScore s sid pts
  | .fire t => fireTimer rng s t

def run (rng : Nat → Nat) (s : St) : List Msg → St
  | [] => s
  | m :: ms => run rng (stepMsg rng s m) ms

end SrvJs

section ALLemmas

variable {α β : Type} [DecidableEq α]

theorem lookupAL_setAL_self (l : List (α × β)) (k : α) (v : β) :
    lookupAL (setAL l k v) k = some v := by
  induction l with
  | nil => simp [setAL, lookupAL]
  | cons p rest ih =>
    by_cases h : p.1 = k
    · simp [setAL, h, lookupAL]
    · cases p with
      | mk k' v' =>
        simp only at h
        simp [setAL, h, lookupAL, ih]

theorem lookupAL_setAL_ne (l : List (α × β)) (k k' : α) (v : β) (h : k' ≠ k) :
    lookupAL (setAL l k v) k' = lookupAL l k' := by
  have h2 : ¬(k = k') := fun hh => h hh.symm
  induction l with
  | nil => simp [setAL, lookupAL, h2]
  | cons p rest ih =>
    cases p with
    | mk a b =>
      by_cases ha : a = k
      · subst ha
        simp [setAL, lookupAL, h2]
      · simp only [setAL, ha, if_false, lookupAL]
        by_cases ha' : a = k'
        · simp [ha']
        · simp [ha', ih]

theorem lookupAL_setAL (l : List (α × β)) (k k' : α) (v : β) :
    lookupAL (setAL l k v) k' = if k' = k then some v else lookupAL l k' := by
  by_cases h : k' = k
  · subst h; simp [lookupAL_setAL_self]
  · simp [h, lookupAL_setAL_ne _ _ _ _ h]

theorem lookupAL_delAL_self (l : List (α × β)) (k : α) :
    lookupAL (delAL l k) k = none := by
  induction l with
  | nil => simp [delAL, lookupAL]
  | cons p rest ih =>
    cases p with
    | mk a b =>
      by_cases ha : a = k
      · simpa [delAL, ha] using ih
      · simpa [delAL, ha, lookupAL] using ih

theorem lookupAL_delAL_ne (l : List (α × β)) (k k' : α) (h : k' ≠ k) :
    lookupAL (delAL l k) k' = lookupAL l k' := by
  have h2 : ¬(k = k') := fun hh => h hh.symm
  induction l with
  | nil => simp [delAL, lookupAL]
  | cons p rest ih =>
    cases p with
    | mk a b =>
      by_cases ha : a = k
      · subst ha
        simp [delAL, lookupAL, h2, ih]
      · simp only [delAL, ha, if_false, lookupAL]
        by_cases ha' : a = k'
        · simp [ha']
        · simp [ha', ih]

theorem lookupAL_delAL (l : List (α × β)) (k k' : α) :
    lookupAL (delAL l k) k' = if k' = k then none else lookupAL l k' := by
  by_cases h : k' = k
  · subst h; simp [lookupAL_delAL_self]
  · simp [h, lookupAL_delAL_ne _ _ _ h]

theorem lookupAL_mem (l : List (α × β)) (k : α) (v : β)
    (h : lookupAL l k = some v) : (k, v) ∈ l := by
  induction l with
  | nil => simp [lookupAL] at h
  | cons p rest ih =>
    cases p with
    | mk a b =>
      by_cases ha : a = k
      · subst ha
        simp [lookupAL] at h
        simp [h]
      · simp [lookupAL, ha] at h
        exact List.mem_cons_of_mem _ (ih h)

end ALLemmas

theorem generateDeck_length (rng : Nat → Nat) (start size : Nat) :
    (generateDeck rng start size).length = size := by
  simp [generateDeck]

theorem generateDeck_lt (rng : Nat → Nat) (start size : Nat) :
    ∀ x ∈ generateDeck rng start size, x < DB_LENGTH := by
  intro x hx
  simp [generateDeck, randFloor] at hx
  obtain ⟨i, _, rfl⟩ := hx
  exact Nat.mod_lt _ (by decide)

/-- The room literal matchmake of server.js registers on pairing. -/
def SrvJs.pairedRoom (rng : Nat → Nat) (w sid start : Nat) : SrvJs.Room :=
  { id := (w, sid), p1 := w, p2 := sid, round := 0, maxRounds := 15,
    phase := .lobby, deck := generateDeck rng start 15 }

theorem SrvJs.matchmake_pair_rooms (rng : Nat → Nat) (s : SrvJs.St) (sid w : Nat)
    (hq : s.queue = [w]) :
    (SrvJs.matchmake rng s sid).rooms =
      setAL s.rooms (w, sid) (SrvJs.pairedRoom rng w sid s.randIdx) := by
  simp [SrvJs.matchmake, hq, SrvJs.updSock, SrvJs.emit, SrvJs.addTimer, SrvJs.pairedRoom]

theorem SrvJs.matchmake_pair_queue (rng : Nat → Nat) (s : SrvJs.St) (sid w : Nat)
    (hq : s.queue = [w]) :
    (SrvJs.matchmake rng s sid).queue = [] := by
  simp [SrvJs.matchmake, hq, SrvJs.updSock, SrvJs.emit, SrvJs.addTimer]

/-- The room literal findMatch of part_000 registers on pairing. -/
def Part0.pairedRoom (rng : Nat → Nat) (w sid start : Nat) : Part0.Room :=
  { id := (w, sid), p1 := w, p2 := sid, scores := { p1 := 0, p2 := 0 },
    round := 0, maxRounds := 15, deck := generateDeck rng start 15, timer := none }

theorem Part0.findMatch_pair_rooms (rng : Nat → Nat) (s : Part0.St) (sid w : Nat)
    (hw : s.waitingPlayer = some w) :
    (Part0.findMatch rng s sid).rooms =
      setAL s.rooms (w, sid) (Part0.pairedRoom rng w sid s.randIdx) := by
  simp [Part0.findMatch, hw, Part0.updSock, Part0.emit, Part0.addTimer, Part0.pairedRoom]

theorem Part0.findMatch_pair_waiting (rng : Nat → Nat) (s : Part0.St) (sid w : Nat)
    (hw : s.waitingPlayer = some w) :
    (Part0.findMatch rng s sid).waitingPlayer = none := by
  simp [Part0.findMatch, hw, Part0.updSock, Part0.emit, Part0.addTimer]

/-- C3: whenever two arrivals are paired (a handle is waiting and another
identify arrives), exactly one match is created and registered: the new
room key maps to a room with round 0, maxRounds 15 and a deck of 15 entries
each below DB_LENGTH = 300 (phase lobby in the server.js variant, which is
the one carrying a phase field), while every other key of the registry is
unchanged, and the waiting slot or queue is emptied. -/
theorem C3_pairing_initial_state (rng : Nat → Nat)
    (s : SrvJs.St) (w sid uid : Nat) (name avatar : String)
    (hq : s.queue = [w])
    (t : Part0.St) (w2 sid2 : Nat) (u : Part0.User)
    (hw : t.waitingPlayer = some w2) :
    (∃ room : SrvJs.Room,
      lookupAL (SrvJs.identify rng s sid uid name avatar).rooms (w, sid) = some room ∧
      room.round = 0 ∧ room.phase = SrvJs.Phase.lobby ∧ room.maxRounds = 15 ∧
      room.deck.length = 15 ∧ (∀ x ∈ room.deck, x < DB_LENGTH) ∧
      (∀ rid, rid ≠ (w, sid) →
        lookupAL (SrvJs.identify rng s sid uid name avatar).rooms rid =
          lookupAL s.rooms rid) ∧
      (SrvJs.identify rng s sid uid name avatar).queue = []) ∧
    (∃ room : Part0.Room,
      lookupAL (Part0.identify rng t sid2 u).rooms (w2, sid2) = some room ∧
      room.round = 0 ∧ room.maxRounds = 15 ∧
      room.deck.length = 15 ∧ (∀ x ∈ room.deck, x < DB_LENGTH) ∧
      (∀ rid, rid ≠ (w2, sid2) →
        lookupAL (Part0.identify rng t sid2 u).rooms rid = lookupAL t.rooms rid) ∧
      (Part0.identify rng t sid2 u).waitingPlayer = none) := by
  constructor
  · have hq' : (SrvJs.updSock s sid (fun sk =>
        { sk with user := some { uid := uid, name := name, avatar := avatar, score := 0 } })).queue
          = [w] := by
      simp [SrvJs.updSock, hq]
    refine ⟨SrvJs.pairedRoom rng w sid s.randIdx, ?_, rfl, rfl, rfl,
      generateDeck_length rng _ 15, generateDeck_lt rng _ 15, ?_, ?_⟩
    · rw [SrvJs.identify, SrvJs.matchmake_pair_rooms rng _ sid w hq']
      simp [SrvJs.updSock, lookupAL_setAL_self]
    · intro rid hr
      rw [SrvJs.identify, SrvJs.matchmake_pair_rooms rng _ sid w hq']
      simp [SrvJs.updSock, lookupAL_setAL_ne _ _ _ _ hr]
    · rw [SrvJs.identify, SrvJs.matchmake_pair_queue rng _ sid w hq']
  · have hw' : (Part0.updSock t sid2 (fun sk => { sk with user := some u })).waitingPlayer
        = some w2 := by
      simp [Part0.updSock, hw]
    refine ⟨Part0.pairedRoom rng w2 sid2 t.randIdx, ?_, rfl, rfl,
      generateDeck_length rng _ 15, generateDeck_lt rng _ 15, ?_, ?_⟩
    · rw [Part0.identify, Part0.findMatch_pair_rooms rng _ sid2 w2 hw']
      simp [Part0.updSock, lookupAL_setAL_self]
    · intro rid hr
      rw [Part0.identify, Part0.findMatch_pair_rooms rng _ sid2 w2 hw']
      simp [Part0.updSock, lookupAL_setAL_ne _ _ _ _ hr]
    · rw [Part0.identify, Part0.findMatch_pair_waiting rng _ sid2 w2 hw']

/-- Fixed random oracle used by concrete witnesses. -/
def rng0 : Nat → Nat := fun _ => 7

theorem removeFirst_length_le {α : Type} [DecidableEq α] (l : List α) (a : α) :
    (removeFirst l a).length ≤ l.length := by
  induction l with
  | nil => simp [removeFirst]
  | cons x xs ih =>
    by_cases h : x = a
    · simp [removeFirst, h]
    · simp only [removeFirst, h, if_false, List.length_cons]
      exact Nat.succ_le_succ ih

theorem SrvJs.matchmake_queue (rng : Nat → Nat) (s : SrvJs.St) (sid : Nat) :
    (SrvJs.matchmake rng s sid).queue =
      (match s.queue.getLast? with
       | some _ => s.queue.dropLast
       | none => s.queue ++ [sid]) := by
  rcases h : s.queue.getLast? with _ | opp
  · simp [SrvJs.matchmake, h, SrvJs.emit]
  · simp [SrvJs.matchmake, h, SrvJs.updSock, SrvJs.emit, SrvJs.addTimer]

theorem SrvJs.submitScore_queue (s : SrvJs.St) (sid : Nat) (pts : Int) :
    (SrvJs.submitScore s sid pts).queue = s.queue := by
  rcases h : SrvJs.roomIdOf s sid with _ | rid
  · simp [SrvJs.submitScore, h]
  · rcases h2 : lookupAL s.rooms rid with _ | room
    · simp [SrvJs.submitScore, h, h2]
    · simp [SrvJs.submitScore, h, h2, SrvJs.updSock, SrvJs.emit]

theorem SrvJs.nextRound_queue (rng : Nat → Nat) (s : SrvJs.St) (rid : SrvJs.RoomId) :
    (SrvJs.nextRound rng s rid).queue = s.queue := by
  rcases h : lookupAL s.rooms rid with _ | room
  · simp [SrvJs.nextRound, h]
  · by_cases h2 : room.maxRounds ≤ room.round
    · simp [SrvJs.nextRound, h, h2, SrvJs.emit]
    · simp [SrvJs.nextRound, h, h2, SrvJs.emit, SrvJs.addTimer]

theorem SrvJs.startGameLoop_queue (rng : Nat → Nat) (s : SrvJs.St) (rid : SrvJs.RoomId) :
    (SrvJs.startGameLoop rng s rid).queue = s.queue := by
  rcases h : lookupAL s.rooms rid with _ | room
  · simp [SrvJs.startGameLoop, h]
  · simp [SrvJs.startGameLoop, h, SrvJs.nextRound_queue]

theorem SrvJs.fireTimer_queue (rng : Nat → Nat) (s : SrvJs.St) (t : SrvJs.Timer) :
    (SrvJs.fireTimer rng s t).queue = s.queue := by
  by_cases hm : t ∈ s.timers
  · cases hk : t.kind with
    | gameLoopStart => simp [SrvJs.fireTimer, hm, hk, SrvJs.startGameLoop_queue]
    | roundEnd =>
      rcases h : lookupAL s.rooms t.roomId with _ | room
      · simp [SrvJs.fireTimer, hm, hk, h]
      · simp [SrvJs.fireTimer, hm, hk, h, SrvJs.emit, SrvJs.addTimer]
    | revealEnd =>
      rcases h : lookupAL s.rooms t.roomId with _ | room
      · simp [SrvJs.fireTimer, hm, hk, h]
      · simp [SrvJs.fireTimer, hm, hk, h, SrvJs.nextRound_queue]
  · simp [SrvJs.fireTimer, hm]

theorem SrvJs.handleDisconnect_queue (s : SrvJs.St) (sid : Nat) :
    (SrvJs.handleDisconnect s sid).queue = removeFirst s.queue sid := by
  rcases h : SrvJs.roomIdOf { s with queue := removeFirst s.queue sid } sid with _ | rid
  · simp [SrvJs.handleDisconnect, h]
  · rcases h2 : lookupAL s.rooms rid with _ | room
    · simp [SrvJs.handleDisconnect, h, h2]
    · simp [SrvJs.handleDisconnect, h, h2, SrvJs.emit]

theorem SrvJs.stepMsg_queue_len (rng : Nat → Nat) (s : SrvJs.St) (m : SrvJs.Msg)
    (h : s.queue.length ≤ 1) : (SrvJs.stepMsg rng s m).queue.length ≤ 1 := by
  cases m with
  | identify sid uid name avatar =>
    show (SrvJs.matchmake rng _ sid).queue.length ≤ 1
    rw [SrvJs.matchmake_queue]
    simp only [SrvJs.updSock]
    rcases hlast : s.queue.getLast? with _ | opp
    · have : s.queue = [] := List.getLast?_eq_none_iff.mp hlast
      simp [this]
    · simp only
      have := List.length_dropLast s.queue
      omega
  | disconnect sid =>
    show (SrvJs.handleDisconnect s sid).queue.length ≤ 1
    rw [SrvJs.handleDisconnect_queue]
    exact le_trans (removeFirst_length_le _ _) h
  | submit sid pts =>
    show (SrvJs.submitScore s sid pts).queue.length ≤ 1
    rw [SrvJs.submitScore_queue]; exact h
  | fire t =>
    show (SrvJs.fireTimer rng s t).queue.length ≤ 1
    rw [SrvJs.fireTimer_queue]; exact h

theorem SrvJs.run_queue_len (rng : Nat → Nat) (ms : List SrvJs.Msg) :
    (SrvJs.run rng SrvJs.init ms).queue.length ≤ 1 := by
  suffices h : ∀ s : SrvJs.St, s.queue.length ≤ 1 →
      ∀ ms : List SrvJs.Msg, (SrvJs.run rng s ms).queue.length ≤ 1 by
    exact h SrvJs.init (by simp [SrvJs.init]) ms
  intro s hs ms2
  induction ms2 generalizing s with
  | nil => exact hs
  | cons m rest ih => exact ih _ (SrvJs.stepMsg_queue_len rng s m hs)

theorem Part0.findMatch_empty_waiting (rng : Nat → Nat) (s : Part0.St) (sid : Nat)
    (hw : s.waitingPlayer = none) :
    (Part0.findMatch rng s sid).waitingPlayer = some sid := by
  simp [Part0.findMatch, hw, Part0.emit]

theorem SrvJs.getSock_updSock_self_srv (s : SrvJs.St) (sid : Nat) (f : SrvJs.Sock → SrvJs.Sock) :
    SrvJs.getSock (SrvJs.updSock s sid f) sid = f (SrvJs.getSock s sid) := by
  simp [SrvJs.getSock, SrvJs.updSock, lookupAL_setAL_self]

theorem SrvJs.getSock_updSock_ne_srv (s : SrvJs.St) (sid sid' : Nat) (f : SrvJs.Sock → SrvJs.Sock)
    (h : sid' ≠ sid) :
    SrvJs.getSock (SrvJs.updSock s sid f) sid' = SrvJs.getSock s sid' := by
  simp [SrvJs.getSock, SrvJs.updSock, lookupAL_setAL_ne _ _ _ _ h]

theorem Part0.getSock_updSock_self (s : Part0.St) (sid : Nat) (f : Part0.Sock → Part0.Sock) :
    Part0.getSock (Part0.updSock s sid f) sid = f (Part0.getSock s sid) := by
  simp [Part0.getSock, Part0.updSock, lookupAL_setAL_self]

theorem Part0.getSock_updSock_ne (s : Part0.St) (sid sid' : Nat) (f : Part0.Sock → Part0.Sock)
    (h : sid' ≠ sid) :
    Part0.getSock (Part0.updSock s sid f) sid' = Part0.getSock s sid' := by
  simp [Part0.getSock, Part0.updSock, lookupAL_setAL_ne _ _ _ _ h]

/-- The score record produced by one accepted part_000 submission: credited
to p1 when the submitter is room.p1 and to p2 otherwise. -/
def Part0.credit (room : Part0.Room) (sid : Nat) (pts : Int) : Part0.Scores :=
  if sid = room.p1 then { room.scores with p1 := room.scores.p1 + pts }
  else { room.scores with p2 := room.scores.p2 + pts }

/-- Full effect of an accepted part_000 submission. -/
theorem Part0.submitScore_effect (s : Part0.St) (sid : Nat) (pts : Int)
    (rid : Part0.RoomId) (room : Part0.Room)
    (h1 : Part0.roomIdOf s sid = some rid) (h2 : lookupAL s.rooms rid = some room) :
    Part0.submitScore s sid pts =
      { s with rooms := setAL s.rooms rid { room with scores := Part0.credit room sid pts },
               events := s.events ++ [Part0.Ev.scoreUpdate rid (Part0.credit room sid pts)] } := by
  simp [Part0.submitScore, h1, h2, Part0.emit, Part0.credit]

/-- The socket field update done by a server.js submission. -/
def SrvJs.bump (pts : Int) : SrvJs.Sock → SrvJs.Sock :=
  fun sk => { sk with user := sk.user.map (fun u => { u with score := u.score + pts }) }

/-- Full effect of an accepted server.js submission. -/
theorem SrvJs.submitScore_effect_srv (s : SrvJs.St) (sid : Nat) (pts : Int)
    (rid : SrvJs.RoomId) (room : SrvJs.Room)
    (h1 : SrvJs.roomIdOf s sid = some rid) (h2 : lookupAL s.rooms rid = some room) :
    SrvJs.submitScore s sid pts =
      SrvJs.emit (SrvJs.updSock s sid (SrvJs.bump pts))
        (.scoreUpdate rid (SrvJs.scoreOf (SrvJs.updSock s sid (SrvJs.bump pts)) room.p1)
                          (SrvJs.scoreOf (SrvJs.updSock s sid (SrvJs.bump pts)) room.p2)) := by
  simp only [SrvJs.submitScore, h1, h2]
  rfl

theorem SrvJs.getSock_emit (s : SrvJs.St) (e : SrvJs.Ev) (sid : Nat) :
    SrvJs.getSock (SrvJs.emit s e) sid = SrvJs.getSock s sid := rfl

theorem SrvJs.scoreOf_emit (s : SrvJs.St) (e : SrvJs.Ev) (sid : Nat) :
    SrvJs.scoreOf (SrvJs.emit s e) sid = SrvJs.scoreOf s sid := rfl

/-- C10: submit_score applies no validation to the points value: for every
integer points, negative included, an accepted submission adds exactly
points to the cumulative score of the submitter (stored on socket.user.score in
server.js and on the room scoreboard in part_000), so cumulative scores are
neither guaranteed non-negative nor non-decreasing. -/
theorem C10_no_points_validation :
    (∀ (s : SrvJs.St) (sid : Nat) (pts : Int) (rid : SrvJs.RoomId) (room : SrvJs.Room)
        (u : SrvJs.User),
      SrvJs.roomIdOf s sid = some rid → lookupAL s.rooms rid = some room →
      (SrvJs.getSock s sid).user = some u →
      (SrvJs.getSock (SrvJs.submitScore s sid pts) sid).user
          = some { u with score := u.score + pts } ∧
      SrvJs.scoreOf (SrvJs.submitScore s sid pts) sid = SrvJs.scoreOf s sid + pts) ∧
    (∀ (t : Part0.St) (sid : Nat) (pts : Int) (rid : Part0.RoomId) (room : Part0.Room),
      Part0.roomIdOf t sid = some rid → lookupAL t.rooms rid = some room →
      lookupAL (Part0.submitScore t sid pts).rooms rid
          = some { room with scores := Part0.credit room sid pts } ∧
      (sid = room.p1 → (Part0.credit room sid pts).p1 = room.scores.p1 + pts ∧
        (Part0.credit room sid pts).p2 = room.scores.p2) ∧
      (sid ≠ room.p1 → (Part0.credit room sid pts).p2 = room.scores.p2 + pts ∧
        (Part0.credit room sid pts).p1 = room.scores.p1)) := by
  constructor
  · intro s sid pts rid room u h1 h2 hu
    rw [SrvJs.submitScore_effect_srv s sid pts rid room h1 h2]
    constructor
    · rw [SrvJs.getSock_emit, SrvJs.getSock_updSock_self_srv]
      simp [SrvJs.bump, hu]
    · rw [SrvJs.scoreOf_emit]
      simp [SrvJs.scoreOf, SrvJs.getSock_updSock_self_srv, SrvJs.bump, hu]
  · intro t sid pts rid room h1 h2
    rw [Part0.submitScore_effect t sid pts rid room h1 h2]
    refine ⟨by simp [lookupAL_setAL_self], ?_, ?_⟩
    · intro h; simp [Part0.credit, h]
    · intro h; simp [Part0.credit, h]

/-- Witness for C10 at a concrete paired state with negative points. -/
theorem C10_no_points_validation_witness :
    (SrvJs.roomIdOf (SrvJs.run rng0 SrvJs.init
        [SrvJs.Msg.identify 1 10 "a" "b", SrvJs.Msg.identify 2 20 "c" "d"]) 1 = some (1, 2)) ∧
    (lookupAL (SrvJs.run rng0 SrvJs.init
        [SrvJs.Msg.identify 1 10 "a" "b", SrvJs.Msg.identify 2 20 "c" "d"]).rooms (1, 2)
      = some (SrvJs.pairedRoom rng0 1 2 0)) ∧
    ((SrvJs.getSock (SrvJs.run rng0 SrvJs.init
        [SrvJs.Msg.identify 1 10 "a" "b", SrvJs.Msg.identify 2 20 "c" "d"]) 1).user
      = some { uid := 10, name := "a", avatar := "b", score := 0 }) ∧
    ((SrvJs.getSock (SrvJs.submitScore (SrvJs.run rng0 SrvJs.init
          [SrvJs.Msg.identify 1 10 "a" "b", SrvJs.Msg.identify 2 20 "c" "d"]) 1 (-5)) 1).user
      = some { uid := 10, name := "a", avatar := "b", score := 0 + (-5) }) ∧
    (Part0.roomIdOf (Part0.run rng0 Part0.init
        [Part0.Msg.identify 1 { uid := 10, name := "a", avatar := "b" },
         Part0.Msg.identify 2 { uid := 20, name := "c", avatar := "d" }]) 1 = some (1, 2)) ∧
    (lookupAL (Part0.run rng0 Part0.init
        [Part0.Msg.identify 1 { uid := 10, name := "a", avatar := "b" },
         Part0.Msg.identify 2 { uid := 20, name := "c", avatar := "d" }]).rooms (1, 2)
      = some (Part0.pairedRoom rng0 1 2 0)) ∧
    (lookupAL (Part0.submitScore (Part0.run rng0 Part0.init
        [Part0.Msg.identify 1 { uid := 10, name := "a", avatar := "b" },
         Part0.Msg.identify 2 { uid := 20, name := "c", avatar := "d" }]) 1 (-5)).rooms (1, 2)
      = some { Part0.pairedRoom rng0 1 2 0 with
               scores := Part0.credit (Part0.pairedRoom rng0 1 2 0) 1 (-5) }) := by
  refine ⟨rfl, rfl, rfl, ?_, rfl, rfl, ?_⟩
  · exact ((C10_no_points_validation.1
      (SrvJs.run rng0 SrvJs.init
        [SrvJs.Msg.identify 1 10 "a" "b", SrvJs.Msg.identify 2 20 "c" "d"])
      1 (-5) (1, 2) (SrvJs.pairedRoom rng0 1 2 0)
      { uid := 10, name := "a", avatar := "b", score := 0 } rfl rfl rfl).1)
  · exact (C10_no_points_validation.2
      (Part0.run rng0 Part0.init
        [Part0.Msg.identify 1 { uid := 10, name := "a", avatar := "b" },
         Part0.Msg.identify 2 { uid := 20, name := "c", avatar := "d" }])
      1 (-5) (1, 2) (Part0.pairedRoom rng0 1 2 0) rfl rfl).1

/-- Sum of the submissions a part_000 room credits to p1 (owner test of the
code: submitter id equals room.p1). -/
def Part0.sumOwn (p1 : Nat) (subs : List (Nat × Int)) : Int :=
  (subs.map (fun q => if q.1 = p1 then q.2 else 0)).sum

/-- Sum of the submissions a part_000 room credits to p2. -/
def Part0.sumOther (p1 : Nat) (subs : List (Nat × Int)) : Int :=
  (subs.map (fun q => if q.1 = p1 then 0 else q.2)).sum

/-- Process a list of submissions in order. -/
def Part0.runSubs (s : Part0.St) (subs : List (Nat × Int)) : Part0.St :=
  subs.foldl (fun a q => Part0.submitScore a q.1 q.2) s

theorem Part0.submitScore_sockets (s : Part0.St) (sid : Nat) (pts : Int) :
    (Part0.submitScore s sid pts).sockets = s.sockets := by
  rcases h : Part0.roomIdOf s sid with _ | rid
  · simp [Part0.submitScore, h]
  · rcases h2 : lookupAL s.rooms rid with _ | room
    · simp [Part0.submitScore, h, h2]
    · simp [Part0.submitScore, h, h2, Part0.emit]

theorem Part0.roomIdOf_submit (s : Part0.St) (sid pts x : _) :
    Part0.roomIdOf (Part0.submitScore s sid pts) x = Part0.roomIdOf s x := by
  show ((lookupAL (Part0.submitScore s sid pts).sockets x).getD _).roomId = _
  rw [Part0.submitScore_sockets]
  rfl

theorem Part0.roomIdOf_runSubs (s : Part0.St) (subs : List (Nat × Int)) (x : Nat) :
    Part0.roomIdOf (Part0.runSubs s subs) x = Part0.roomIdOf s x := by
  induction subs generalizing s with
  | nil => rfl
  | cons q rest ih =>
    show Part0.roomIdOf (Part0.runSubs (Part0.submitScore s q.1 q.2) rest) x = _
    rw [ih, Part0.roomIdOf_submit]

theorem Part0.runSubs_cumulative (rid : Part0.RoomId) :
    ∀ (subs : List (Nat × Int)) (s : Part0.St) (room : Part0.Room),
      lookupAL s.rooms rid = some room →
      (∀ q ∈ subs, Part0.roomIdOf s q.1 = some rid) →
      lookupAL (Part0.runSubs s subs).rooms rid =
        some { room with scores :=
          { p1 := room.scores.p1 + Part0.sumOwn room.p1 subs,
            p2 := room.scores.p2 + Part0.sumOther room.p1 subs } } := by
  intro subs
  induction subs with
  | nil =>
    intro s room h2 _
    simpa [Part0.runSubs, Part0.sumOwn, Part0.sumOther] using h2
  | cons q rest ih =>
    intro s room h2 hr
    have hq : Part0.roomIdOf s q.1 = some rid := hr q (List.mem_cons_self q rest)
    have heff := Part0.submitScore_effect s q.1 q.2 rid room hq h2
    show lookupAL (Part0.runSubs (Part0.submitScore s q.1 q.2) rest).rooms rid = _
    have h2' : lookupAL (Part0.submitScore s q.1 q.2).rooms rid =
        some { room with scores := Part0.credit room q.1 q.2 } := by
      rw [heff]; simp [lookupAL_setAL_self]
    have hr' : ∀ p ∈ rest, Part0.roomIdOf (Part0.submitScore s q.1 q.2) p.1 = some rid :=
      fun p hp => by rw [Part0.roomIdOf_submit]; exact hr p (List.mem_cons_of_mem q hp)
    rw [ih (Part0.submitScore s q.1 q.2) _ h2' hr']
    by_cases hc : q.1 = room.p1
    · simp [Part0.credit, hc, Part0.sumOwn, Part0.sumOther]
      ring
    · simp [Part0.credit, hc, Part0.sumOwn, Part0.sumOther]
      ring

/-- Sum of the submissions credited to the socket with the given id. -/
def sumBy (sid : Nat) (subs : List (Nat × Int)) : Int :=
  (subs.map (fun q => if q.1 = sid then q.2 else 0)).sum

theorem SrvJs.submitScore_rooms (s : SrvJs.St) (sid : Nat) (pts : Int) :
    (SrvJs.submitScore s sid pts).rooms = s.rooms := by
  rcases h1 : SrvJs.roomIdOf s sid with _ | rid2
  · simp [SrvJs.submitScore, h1]
  · rcases h2 : lookupAL s.rooms rid2 with _ | room
    · simp [SrvJs.submitScore, h1, h2]
    · simp [SrvJs.submitScore, h1, h2, SrvJs.updSock, SrvJs.emit]

theorem SrvJs.roomIdOf_submit_srv (s : SrvJs.St) (sid : Nat) (pts : Int) (x : Nat) :
    SrvJs.roomIdOf (SrvJs.submitScore s sid pts) x = SrvJs.roomIdOf s x := by
  rcases h1 : SrvJs.roomIdOf s sid with _ | rid2
  · simp [SrvJs.submitScore, h1]
  · rcases h2 : lookupAL s.rooms rid2 with _ | room
    · simp [SrvJs.submitScore, h1, h2]
    · rw [SrvJs.submitScore_effect_srv s sid pts rid2 room h1 h2]
      show (SrvJs.getSock (SrvJs.updSock s sid (SrvJs.bump pts)) x).roomId = _
      by_cases hx : x = sid
      · subst hx
        rw [SrvJs.getSock_updSock_self_srv]
        rfl
      · rw [SrvJs.getSock_updSock_ne_srv s sid x (SrvJs.bump pts) hx]
        rfl

/-- Process a list of submissions in order (server.js variant). -/
def SrvJs.runSubsS (s : SrvJs.St) (subs : List (Nat × Int)) : SrvJs.St :=
  subs.foldl (fun a q => SrvJs.submitScore a q.1 q.2) s

theorem SrvJs.roomIdOf_runSubsS (s : SrvJs.St) (subs : List (Nat × Int)) (x : Nat) :
    SrvJs.roomIdOf (SrvJs.runSubsS s subs) x = SrvJs.roomIdOf s x := by
  induction subs generalizing s with
  | nil => rfl
  | cons q rest ih =>
    show SrvJs.roomIdOf (SrvJs.runSubsS (SrvJs.submitScore s q.1 q.2) rest) x = _
    rw [ih, SrvJs.roomIdOf_submit_srv]

theorem SrvJs.runSubsS_scores (rid : SrvJs.RoomId) (room : SrvJs.Room)
    (hne : room.p1 ≠ room.p2) :
    ∀ (subs : List (Nat × Int)) (s : SrvJs.St) (u1 u2 : SrvJs.User),
      lookupAL s.rooms rid = some room →
      (∀ q ∈ subs, SrvJs.roomIdOf s q.1 = some rid ∧ (q.1 = room.p1 ∨ q.1 = room.p2)) →
      (SrvJs.getSock s room.p1).user = some u1 →
      (SrvJs.getSock s room.p2).user = some u2 →
      lookupAL (SrvJs.runSubsS s subs).rooms rid = some room ∧
      (SrvJs.getSock (SrvJs.runSubsS s subs) room.p1).user
        = some { u1 with score := u1.score + sumBy room.p1 subs } ∧
      (SrvJs.getSock (SrvJs.runSubsS s subs) room.p2).user
        = some { u2 with score := u2.score + sumBy room.p2 subs } := by
  intro subs
  induction subs with
  | nil =>
    intro s u1 u2 h2 _ hu1 hu2
    refine ⟨h2, ?_, ?_⟩ <;> simp [SrvJs.runSubsS, sumBy, hu1, hu2]
  | cons q rest ih =>
    intro s u1 u2 h2 hr hu1 hu2
    obtain ⟨hq1, hq2⟩ := hr q (List.mem_cons_self q rest)
    have heff := SrvJs.submitScore_effect_srv s q.1 q.2 rid room hq1 h2
    have hstep : SrvJs.runSubsS s (q :: rest)
        = SrvJs.runSubsS (SrvJs.submitScore s q.1 q.2) rest := rfl
    have hrooms : lookupAL (SrvJs.submitScore s q.1 q.2).rooms rid = some room := by
      rw [SrvJs.submitScore_rooms]; exact h2
    have hr' : ∀ p ∈ rest, SrvJs.roomIdOf (SrvJs.submitScore s q.1 q.2) p.1 = some rid ∧
        (p.1 = room.p1 ∨ p.1 = room.p2) := by
      intro p hp
      obtain ⟨hpa, hpb⟩ := hr p (List.mem_cons_of_mem q hp)
      exact ⟨by rw [SrvJs.roomIdOf_submit_srv]; exact hpa, hpb⟩
    rcases hq2 with hq2 | hq2
    · have hu1' : (SrvJs.getSock (SrvJs.submitScore s q.1 q.2) room.p1).user
          = some { u1 with score := u1.score + q.2 } := by
        rw [heff, SrvJs.getSock_emit, hq2, SrvJs.getSock_updSock_self_srv]
        simp [SrvJs.bump, hu1]
      have hu2' : (SrvJs.getSock (SrvJs.submitScore s q.1 q.2) room.p2).user = some u2 := by
        rw [heff, SrvJs.getSock_emit,
          SrvJs.getSock_updSock_ne_srv s q.1 room.p2 (SrvJs.bump q.2)
            (by rw [hq2]; exact Ne.symm hne)]
        exact hu2
      have hrec := ih (SrvJs.submitScore s q.1 q.2) _ _ hrooms hr' hu1' hu2'
      rw [hstep]
      refine ⟨hrec.1, ?_, ?_⟩
      · rw [hrec.2.1]
        simp [sumBy, hq2, add_assoc]
      · rw [hrec.2.2]
        have hne2 : ¬(q.1 = room.p2) := by rw [hq2]; exact hne
        simp [sumBy, hne2]
    · have hne1 : ¬(q.1 = room.p1) := by
        rw [hq2]; exact Ne.symm hne
      have hu2' : (SrvJs.getSock (SrvJs.submitScore s q.1 q.2) room.p2).user
          = some { u2 with score := u2.score + q.2 } := by
        rw [heff, SrvJs.getSock_emit, hq2, SrvJs.getSock_updSock_self_srv]
        simp [SrvJs.bump, hu2]
      have hu1' : (SrvJs.getSock (SrvJs.submitScore s q.1 q.2) room.p1).user = some u1 := by
        rw [heff, SrvJs.getSock_emit,
          SrvJs.getSock_updSock_ne_srv s q.1 room.p1 (SrvJs.bump q.2)
            (by rw [hq2]; exact hne)]
        exact hu1
      have hrec := ih (SrvJs.submitScore s q.1 q.2) _ _ hrooms hr' hu1' hu2'
      rw [hstep]
      refine ⟨hrec.1, ?_, ?_⟩
      · rw [hrec.2.1]
        simp [sumBy, hne1]
      · rw [hrec.2.2]
        simp [sumBy, hq2, add_assoc]

/-- C5 amended: an accepted submission on a registered match credits exactly
the participant owning the handle, leaves the score of the other participant
unchanged, and immediately broadcasts the full scoreboard.  Starting from the
fresh 0/0 scoreboard, every score_update broadcast carries, for each player,
exactly the sum of all submissions accepted so far: unconditionally in
part_000 (room scoreboard), and in server.js provided no participant
re-identifies mid-match, since a repeated identify resets the stored
socket.user.score to 0 (see the counterexample). -/
theorem C5_submit_score_cumulative :
    (∀ (s : Part0.St) (sid : Nat) (pts : Int) (rid : Part0.RoomId) (room : Part0.Room),
      Part0.roomIdOf s sid = some rid → lookupAL s.rooms rid = some room →
      (sid = room.p1 ∨ sid = room.p2) →
      lookupAL (Part0.submitScore s sid pts).rooms rid
          = some { room with scores := Part0.credit room sid pts } ∧
      (Part0.submitScore s sid pts).events
          = s.events ++ [Part0.Ev.scoreUpdate rid (Part0.credit room sid pts)] ∧
      (sid = room.p1 → Part0.credit room sid pts
          = { p1 := room.scores.p1 + pts, p2 := room.scores.p2 }) ∧
      (sid ≠ room.p1 → Part0.credit room sid pts
          = { p1 := room.scores.p1, p2 := room.scores.p2 + pts })) ∧
    (∀ (s : Part0.St) (rid : Part0.RoomId) (room : Part0.Room) (subs : List (Nat × Int)),
      lookupAL s.rooms rid = some room →
      room.scores = { p1 := 0, p2 := 0 } →
      (∀ q ∈ subs, Part0.roomIdOf s q.1 = some rid) →
      lookupAL (Part0.runSubs s subs).rooms rid
          = some { room with scores :=
              { p1 := Part0.sumOwn room.p1 subs, p2 := Part0.sumOther room.p1 subs } } ∧
      (∀ pre q post, subs = pre ++ q :: post →
        (Part0.runSubs s (pre ++ [q])).events
          = (Part0.runSubs s pre).events
              ++ [Part0.Ev.scoreUpdate rid
                  { p1 := Part0.sumOwn room.p1 (pre ++ [q]),
                    p2 := Part0.sumOther room.p1 (pre ++ [q]) }])) ∧
    (∀ (s : SrvJs.St) (sid : Nat) (pts : Int) (rid : SrvJs.RoomId) (room : SrvJs.Room)
        (u1 u2 : SrvJs.User),
      SrvJs.roomIdOf s sid = some rid → lookupAL s.rooms rid = some room →
      (SrvJs.getSock s room.p1).user = some u1 →
      (SrvJs.getSock s room.p2).user = some u2 →
      room.p1 ≠ room.p2 →
      (sid = room.p1 →
        (SrvJs.submitScore s sid pts).events
          = s.events ++ [SrvJs.Ev.scoreUpdate rid (u1.score + pts) u2.score]) ∧
      (sid = room.p2 →
        (SrvJs.submitScore s sid pts).events
          = s.events ++ [SrvJs.Ev.scoreUpdate rid u1.score (u2.score + pts)])) ∧
    (∀ (s : SrvJs.St) (rid : SrvJs.RoomId) (room : SrvJs.Room) (u1 u2 : SrvJs.User)
        (subs : List (Nat × Int)),
      lookupAL s.rooms rid = some room → room.p1 ≠ room.p2 →
      (SrvJs.getSock s room.p1).user = some u1 →
      (SrvJs.getSock s room.p2).user = some u2 →
      u1.score = 0 → u2.score = 0 →
      (∀ q ∈ subs, SrvJs.roomIdOf s q.1 = some rid ∧ (q.1 = room.p1 ∨ q.1 = room.p2)) →
      ((SrvJs.getSock (SrvJs.runSubsS s subs) room.p1).user
          = some { u1 with score := sumBy room.p1 subs } ∧
       (SrvJs.getSock (SrvJs.runSubsS s subs) room.p2).user
          = some { u2 with score := sumBy room.p2 subs }) ∧
      (∀ pre q post, subs = pre ++ q :: post →
        (SrvJs.runSubsS s (pre ++ [q])).events
          = (SrvJs.runSubsS s pre).events
              ++ [SrvJs.Ev.scoreUpdate rid (sumBy room.p1 (pre ++ [q]))
                  (sumBy room.p2 (pre ++ [q]))])) := by
  refine ⟨?_, ?_, ?_, ?_⟩
  · intro s sid pts rid room h1 h2 _
    rw [Part0.submitScore_effect s sid pts rid room h1 h2]
    refine ⟨by simp [lookupAL_setAL_self], rfl, ?_, ?_⟩
    · intro h; simp [Part0.credit, h]
    · intro h; simp [Part0.credit, h]
  · intro s rid room subs h2 hz hr
    constructor
    · have hcum := Part0.runSubs_cumulative rid subs s room h2 hr
      simpa [hz] using hcum
    · intro pre q post hsplit
      have hpre : ∀ p ∈ pre, Part0.roomIdOf s p.1 = some rid := fun p hp =>
        hr p (by rw [hsplit]; exact List.mem_append_left _ hp)
      have hq : Part0.roomIdOf s q.1 = some rid :=
        hr q (by rw [hsplit]; exact List.mem_append_right _ (List.mem_cons_self q post))
      have hcum := Part0.runSubs_cumulative rid pre s room h2 hpre
      have hsock : Part0.roomIdOf (Part0.runSubs s pre) q.1 = some rid := by
        rw [Part0.roomIdOf_runSubs]; exact hq
      have happ : Part0.runSubs s (pre ++ [q])
          = Part0.submitScore (Part0.runSubs s pre) q.1 q.2 := by
        simp [Part0.runSubs, List.foldl_append]
      have heff := Part0.submitScore_effect (Part0.runSubs s pre) q.1 q.2 rid _ hsock hcum
      rw [happ, heff]
      show (Part0.runSubs s pre).events ++ [Part0.Ev.scoreUpdate rid _] = _
      by_cases hc : q.1 = room.p1
      · simp [Part0.credit, hc, Part0.sumOwn, Part0.sumOther, hz]
      · simp [Part0.credit, hc, Part0.sumOwn, Part0.sumOther, hz]
  · intro s sid pts rid room u1 u2 h1 h2 hu1 hu2 hne
    rw [SrvJs.submitScore_effect_srv s sid pts rid room h1 h2]
    constructor
    · intro hp1
      subst hp1
      show s.events ++ [SrvJs.Ev.scoreUpdate rid _ _] = _
      rw [SrvJs.scoreOf, SrvJs.scoreOf, SrvJs.getSock_updSock_self_srv,
        SrvJs.getSock_updSock_ne_srv s room.p1 room.p2 (SrvJs.bump pts) (Ne.symm hne)]
      simp [SrvJs.bump, hu1, hu2]
    · intro hp2
      subst hp2
      show s.events ++ [SrvJs.Ev.scoreUpdate rid _ _] = _
      rw [SrvJs.scoreOf, SrvJs.scoreOf, SrvJs.getSock_updSock_self_srv,
        SrvJs.getSock_updSock_ne_srv s room.p2 room.p1 (SrvJs.bump pts) hne]
      simp [SrvJs.bump, hu1, hu2]
  · intro s rid room u1 u2 subs h2 hne hu1 hu2 hz1 hz2 hr
    constructor
    · have hsc := SrvJs.runSubsS_scores rid room hne subs s u1 u2 h2 hr hu1 hu2
      constructor
      · rw [hsc.2.1, hz1]
        simp
      · rw [hsc.2.2, hz2]
        simp
    · intro pre q post hsplit
      have hpre : ∀ p ∈ pre, SrvJs.roomIdOf s p.1 = some rid ∧
          (p.1 = room.p1 ∨ p.1 = room.p2) := fun p hp =>
        hr p (by rw [hsplit]; exact List.mem_append_left _ hp)
      obtain ⟨hq1, hq2⟩ := hr q
        (by rw [hsplit]; exact List.mem_append_right _ (List.mem_cons_self q post))
      have hsc := SrvJs.runSubsS_scores rid room hne pre s u1 u2 h2 hpre hu1 hu2
      have hroute : SrvJs.roomIdOf (SrvJs.runSubsS s pre) q.1 = some rid := by
        rw [SrvJs.roomIdOf_runSubsS]; exact hq1
      have happ : SrvJs.runSubsS s (pre ++ [q])
          = SrvJs.submitScore (SrvJs.runSubsS s pre) q.1 q.2 := by
        simp [SrvJs.runSubsS, List.foldl_append]
      have heff := SrvJs.submitScore_effect_srv (SrvJs.runSubsS s pre) q.1 q.2
        rid room hroute hsc.1
      rw [happ, heff]
      show (SrvJs.runSubsS s pre).events ++ [SrvJs.Ev.scoreUpdate rid _ _] = _
      rcases hq2 with hq2 | hq2
      · have e1 : SrvJs.scoreOf
            (SrvJs.updSock (SrvJs.runSubsS s pre) q.1 (SrvJs.bump q.2)) room.p1
            = u1.score + sumBy room.p1 pre + q.2 := by
          rw [SrvJs.scoreOf, hq2, SrvJs.getSock_updSock_self_srv]
          simp [SrvJs.bump, hsc.2.1]
        have e2 : SrvJs.scoreOf
            (SrvJs.updSock (SrvJs.runSubsS s pre) q.1 (SrvJs.bump q.2)) room.p2
            = u2.score + sumBy room.p2 pre := by
          rw [SrvJs.scoreOf, SrvJs.getSock_updSock_ne_srv _ q.1 room.p2 (SrvJs.bump q.2)
            (by rw [hq2]; exact Ne.symm hne)]
          rw [show (SrvJs.getSock (SrvJs.runSubsS s pre) room.p2).user
              = some { u2 with score := u2.score + sumBy room.p2 pre } from hsc.2.2]
        rw [e1, e2]
        have hne2 : ¬(q.1 = room.p2) := by rw [hq2]; exact hne
        simp [sumBy, hq2, hne2, hz1, hz2, hne]
      · have hne1 : ¬(q.1 = room.p1) := by rw [hq2]; exact Ne.symm hne
        have e1 : SrvJs.scoreOf
            (SrvJs.updSock (SrvJs.runSubsS s pre) q.1 (SrvJs.bump q.2)) room.p1
            = u1.score + sumBy room.p1 pre := by
          rw [SrvJs.scoreOf, SrvJs.getSock_updSock_ne_srv _ q.1 room.p1 (SrvJs.bump q.2)
            (by rw [hq2]; exact hne)]
          rw [show (SrvJs.getSock (SrvJs.runSubsS s pre) room.p1).user
              = some { u1 with score := u1.score + sumBy room.p1 pre } from hsc.2.1]
        have e2 : SrvJs.scoreOf
            (SrvJs.updSock (SrvJs.runSubsS s pre) q.1 (SrvJs.bump q.2)) room.p2
            = u2.score + sumBy room.p2 pre + q.2 := by
          rw [SrvJs.scoreOf, hq2, SrvJs.getSock_updSock_self_srv]
          simp [SrvJs.bump, hsc.2.2]
        rw [e1, e2]
        simp [sumBy, hq2, hne1, hz1, hz2, Ne.symm hne]

/-- Concrete part_000 state after pairing sockets 1 and 2. -/
def pw2c : Part0.St :=
  Part0.run rng0 Part0.init
    [Part0.Msg.identify 1 { uid := 10, name := "a", avatar := "b" },
     Part0.Msg.identify 2 { uid := 20, name := "c", avatar := "d" }]

/-- Concrete server.js state after pairing sockets 1 and 2. -/
def sw2c : SrvJs.St :=
  SrvJs.run rng0 SrvJs.init
    [SrvJs.Msg.identify 1 10 "a" "b", SrvJs.Msg.identify 2 20 "c" "d"]

/-- Witness for C5 at the concrete paired states. -/
theorem C5_submit_score_cumulative_witness :
    (lookupAL (Part0.submitScore pw2c 1 100).rooms (1, 2)
        = some { Part0.pairedRoom rng0 1 2 0 with
                 scores := Part0.credit (Part0.pairedRoom rng0 1 2 0) 1 100 }) ∧
    ((Part0.runSubs pw2c ([(1, 100)] ++ [(2, 7)])).events
        = (Part0.runSubs pw2c [(1, 100)]).events
            ++ [Part0.Ev.scoreUpdate (1, 2)
                { p1 := Part0.sumOwn 1 ([(1, 100)] ++ [(2, 7)]),
                  p2 := Part0.sumOther 1 ([(1, 100)] ++ [(2, 7)]) }]) ∧
    ((SrvJs.submitScore sw2c 2 50).events
        = sw2c.events ++ [SrvJs.Ev.scoreUpdate (1, 2) 0 (0 + 50)]) ∧
    ((SrvJs.getSock (SrvJs.runSubsS sw2c [(2, 100), (1, 7)]) 1).user
        = some { uid := 10, name := "a", avatar := "b",
                 score := sumBy 1 [(2, 100), (1, 7)] }) ∧
    ((SrvJs.runSubsS sw2c ([(2, 100)] ++ [(1, 7)])).events
        = (SrvJs.runSubsS sw2c [(2, 100)]).events
            ++ [SrvJs.Ev.scoreUpdate (1, 2) (sumBy 1 ([(2, 100)] ++ [(1, 7)]))
                (sumBy 2 ([(2, 100)] ++ [(1, 7)]))]) :=
  ⟨(C5_submit_score_cumulative.1 pw2c 1 100 (1, 2) (Part0.pairedRoom rng0 1 2 0)
      rfl rfl (Or.inl rfl)).1,
   (C5_submit_score_cumulative.2.1 pw2c (1, 2) (Part0.pairedRoom rng0 1 2 0)
      [(1, 100), (2, 7)] rfl rfl (by decide)).2 [(1, 100)] (2, 7) [] rfl,
   (C5_submit_score_cumulative.2.2.1 sw2c 2 50 (1, 2) (SrvJs.pairedRoom rng0 1 2 0)
      { uid := 10, name := "a", avatar := "b", score := 0 }
      { uid := 20, name := "c", avatar := "d", score := 0 }
      rfl rfl rfl rfl (by decide)).2 rfl,
   (C5_submit_score_cumulative.2.2.2 sw2c (1, 2) (SrvJs.pairedRoom rng0 1 2 0)
      { uid := 10, name := "a", avatar := "b", score := 0 }
      { uid := 20, name := "c", avatar := "d", score := 0 }
      [(2, 100), (1, 7)] rfl (by decide) rfl rfl rfl rfl (by decide)).1.1,
   (C5_submit_score_cumulative.2.2.2 sw2c (1, 2) (SrvJs.pairedRoom rng0 1 2 0)
      { uid := 10, name := "a", avatar := "b", score := 0 }
      { uid := 20, name := "c", avatar := "d", score := 0 }
      [(2, 100), (1, 7)] rfl (by decide) rfl rfl rfl rfl (by decide)).2
     [(2, 100)] (1, 7) [] rfl⟩

/-- Concrete server.js run refuting the cumulative reading of C5: pair
sockets 1 and 2, accept submit_score(2, 100), let socket 2 send identify
again mid-match (which resets its stored socket.user.score to 0 and queues
it as waiting), then accept submit_score(2, 50).  The room is still
registered and both submissions were accepted for participant 2, yet the
final score_update broadcasts 50, not the accumulated 150. -/
def c5bad : SrvJs.St :=
  SrvJs.run rng0 SrvJs.init
    [SrvJs.Msg.identify 1 10 "a" "b", SrvJs.Msg.identify 2 20 "c" "d",
     SrvJs.Msg.submit 2 100, SrvJs.Msg.identify 2 20 "c" "d", SrvJs.Msg.submit 2 50]

/-- C5 counterexample: in the server.js variant a mid-match re-identify
resets the stored score, so a later accepted submission broadcasts a
scoreboard that is not the sum of all previously accepted submissions. -/
theorem C5_counterexample :
    lookupAL c5bad.rooms (1, 2) = some (SrvJs.pairedRoom rng0 1 2 0) ∧
    c5bad.events =
      [SrvJs.Ev.waitingOpponent 1,
       SrvJs.Ev.matchFound (1, 2)
         (some { uid := 10, name := "a", avatar := "b", score := 0 })
         (some { uid := 20, name := "c", avatar := "d", score := 0 }) (some (1, 2)),
       SrvJs.Ev.scoreUpdate (1, 2) 0 100,
       SrvJs.Ev.waitingOpponent 2,
       SrvJs.Ev.scoreUpdate (1, 2) 0 50] ∧
    (50 : Int) ≠ 100 + 50 :=
  ⟨rfl, rfl, by decide⟩

/-- A registered part_000 room whose participants are sockets 1 and 2. -/
def c8room : Part0.Room :=
  { id := (1, 2), p1 := 1, p2 := 2, scores := { p1 := 0, p2 := 0 },
    round := 3, maxRounds := 15, deck := generateDeck rng0 0 15, timer := none }

/-- A part_000 state in which socket 3 is routed (via socket.roomId) to the
registered room (1, 2) without being one of its participants. -/
def c8state : Part0.St :=
  { rooms := [((1, 2), c8room)], waitingPlayer := none,
    sockets :=
      [(1, { user := some { uid := 10, name := "a", avatar := "b" }, roomId := some (1, 2) }),
       (2, { user := some { uid := 20, name := "c", avatar := "d" }, roomId := some (1, 2) }),
       (3, { user := some { uid := 30, name := "e", avatar := "f" }, roomId := some (1, 2) })],
    joined := [((1, 2), 1), ((1, 2), 2)], timers := [], nextTimer := 0,
    randIdx := 15, events := [] }

/-- C8 counterexample: in part_000, a submission from socket 3, routed to
registered room (1, 2) but not one of its participants 1 and 2, is not
silently ignored: the else branch of the owner test credits the points to
p2, so the scoreboard changes. -/
theorem C8_counterexample :
    Part0.roomIdOf c8state 3 = some (1, 2) ∧
    lookupAL c8state.rooms (1, 2) = some c8room ∧
    c8room.p1 ≠ 3 ∧ c8room.p2 ≠ 3 ∧
    lookupAL (Part0.submitScore c8state 3 5).rooms (1, 2)
      = some { c8room with scores := { p1 := 0, p2 := 5 } } ∧
    (lookupAL (Part0.submitScore c8state 3 5).rooms (1, 2)).map (fun r => r.scores)
      ≠ some c8room.scores :=
  ⟨rfl, rfl, by decide, by decide, rfl, by decide⟩

/-- C8 amended: a submission routed to a registered match from a handle
that is not one of its two participants never crashes or escalates, and is
handled as follows: in server.js no cumulative score of a participant
changes (a score_update carrying the unchanged scores is still broadcast,
the hidden score field of the submitter absorbs the points); in part_000 the
else branch of the owner test credits the points to the cumulative score of p2. -/
theorem C8_nonparticipant_submission (s : SrvJs.St) (sid : Nat) (pts : Int)
    (rid : SrvJs.RoomId) (room : SrvJs.Room)
    (h1 : SrvJs.roomIdOf s sid = some rid) (h2 : lookupAL s.rooms rid = some room)
    (hn1 : sid ≠ room.p1) (hn2 : sid ≠ room.p2)
    (t : Part0.St) (sid2 : Nat) (pts2 : Int) (rid2 : Part0.RoomId) (room2 : Part0.Room)
    (g1 : Part0.roomIdOf t sid2 = some rid2) (g2 : lookupAL t.rooms rid2 = some room2)
    (gn1 : sid2 ≠ room2.p1) :
    SrvJs.scoreOf (SrvJs.submitScore s sid pts) room.p1 = SrvJs.scoreOf s room.p1 ∧
    SrvJs.scoreOf (SrvJs.submitScore s sid pts) room.p2 = SrvJs.scoreOf s room.p2 ∧
    (SrvJs.submitScore s sid pts).events
      = s.events
          ++ [SrvJs.Ev.scoreUpdate rid (SrvJs.scoreOf s room.p1) (SrvJs.scoreOf s room.p2)] ∧
    lookupAL (Part0.submitScore t sid2 pts2).rooms rid2
      = some { room2 with scores := { room2.scores with p2 := room2.scores.p2 + pts2 } } := by
  have hs1 : SrvJs.scoreOf (SrvJs.updSock s sid (SrvJs.bump pts)) room.p1
      = SrvJs.scoreOf s room.p1 := by
    rw [SrvJs.scoreOf, SrvJs.getSock_updSock_ne_srv s sid room.p1 (SrvJs.bump pts) (Ne.symm hn1)]
    rfl
  have hs2 : SrvJs.scoreOf (SrvJs.updSock s sid (SrvJs.bump pts)) room.p2
      = SrvJs.scoreOf s room.p2 := by
    rw [SrvJs.scoreOf, SrvJs.getSock_updSock_ne_srv s sid room.p2 (SrvJs.bump pts) (Ne.symm hn2)]
    rfl
  rw [SrvJs.submitScore_effect_srv s sid pts rid room h1 h2]
  refine ⟨?_, ?_, ?_, ?_⟩
  · rw [SrvJs.scoreOf_emit, hs1]
  · rw [SrvJs.scoreOf_emit, hs2]
  · show _ ++ [SrvJs.Ev.scoreUpdate rid _ _] = _
    rw [hs1, hs2]
    rfl
  · rw [Part0.submitScore_effect t sid2 pts2 rid2 room2 g1 g2]
    simp [lookupAL_setAL_self, Part0.credit, gn1]

/-- A server.js state in which socket 3 is routed to the registered room
(1, 2) without being one of its participants. -/
def c8sstate : SrvJs.St :=
  { rooms := [((1, 2), SrvJs.pairedRoom rng0 1 2 0)], queue := [],
    sockets :=
      [(1, { user := some { uid := 10, name := "a", avatar := "b", score := 0 },
             roomId := some (1, 2) }),
       (2, { user := some { uid := 20, name := "c", avatar := "d", score := 0 },
             roomId := some (1, 2) }),
       (3, { user := some { uid := 30, name := "e", avatar := "f", score := 0 },
             roomId := some (1, 2) })],
    joined := [((1, 2), 1), ((1, 2), 2)], timers := [], nextTimer := 1,
    randIdx := 15, events := [] }

/-- Witness for the amended C8 at the concrete states. -/
theorem C8_nonparticipant_submission_witness :
    SrvJs.scoreOf (SrvJs.submitScore c8sstate 3 5) (SrvJs.pairedRoom rng0 1 2 0).p1
        = SrvJs.scoreOf c8sstate (SrvJs.pairedRoom rng0 1 2 0).p1 ∧
    SrvJs.scoreOf (SrvJs.submitScore c8sstate 3 5) (SrvJs.pairedRoom rng0 1 2 0).p2
        = SrvJs.scoreOf c8sstate (SrvJs.pairedRoom rng0 1 2 0).p2 ∧
    (SrvJs.submitScore c8sstate 3 5).events
        = c8sstate.events
            ++ [SrvJs.Ev.scoreUpdate (1, 2)
                (SrvJs.scoreOf c8sstate (SrvJs.pairedRoom rng0 1 2 0).p1)
                (SrvJs.scoreOf c8sstate (SrvJs.pairedRoom rng0 1 2 0).p2)] ∧
    lookupAL (Part0.submitScore c8state 3 5).rooms (1, 2)
        = some { c8room with scores := { c8room.scores with p2 := c8room.scores.p2 + 5 } } :=
  C8_nonparticipant_submission c8sstate 3 5 (1, 2) (SrvJs.pairedRoom rng0 1 2 0)
    rfl rfl (by decide) (by decide)
    c8state 3 5 (1, 2) c8room rfl rfl (by decide)

/-- True exactly on a match_found event whose payload carries a match id. -/
def Part0.mfCarriesId : Part0.Ev → Bool
  | .matchFound _ _ _ (some _) => true
  | _ => false

theorem Part0.findMatch_pair_events (rng : Nat → Nat) (s : Part0.St) (sid w : Nat)
    (hw : s.waitingPlayer = some w) (hne : w ≠ sid) :
    (Part0.findMatch rng s sid).events =
      s.events ++ [Part0.Ev.matchFound (w, sid)
        ((Part0.getSock s w).user) ((Part0.getSock s sid).user) none] ∧
    ((w, sid), w) ∈ (Part0.findMatch rng s sid).joined ∧
    ((w, sid), sid) ∈ (Part0.findMatch rng s sid).joined := by
  have hne2 : ¬(sid = w) := fun hh => hne hh.symm
  refine ⟨?_, ?_, ?_⟩
  · simp [Part0.findMatch, hw, Part0.emit, Part0.addTimer, Part0.updSock, Part0.getSock,
      lookupAL_setAL_self, lookupAL_setAL, hne, hne2]
  · simp [Part0.findMatch, hw, Part0.emit, Part0.addTimer, Part0.updSock]
  · simp [Part0.findMatch, hw, Part0.emit, Part0.addTimer, Part0.updSock]

theorem SrvJs.matchmake_pair_events (rng : Nat → Nat) (s : SrvJs.St) (sid w : Nat)
    (hq : s.queue = [w]) (hne : w ≠ sid) :
    (SrvJs.matchmake rng s sid).events =
      s.events ++ [SrvJs.Ev.matchFound (w, sid)
        ((SrvJs.getSock s w).user) ((SrvJs.getSock s sid).user) (some (w, sid))] ∧
    ((w, sid), w) ∈ (SrvJs.matchmake rng s sid).joined ∧
    ((w, sid), sid) ∈ (SrvJs.matchmake rng s sid).joined := by
  have hne2 : ¬(sid = w) := fun hh => hne hh.symm
  refine ⟨?_, ?_, ?_⟩
  · simp [SrvJs.matchmake, hq, SrvJs.emit, SrvJs.addTimer, SrvJs.updSock, SrvJs.getSock,
      lookupAL_setAL_self, lookupAL_setAL, hne, hne2]
  · simp [SrvJs.matchmake, hq, SrvJs.emit, SrvJs.addTimer, SrvJs.updSock]
  · simp [SrvJs.matchmake, hq, SrvJs.emit, SrvJs.addTimer, SrvJs.updSock]

/-- C9 counterexample: in part_000 the pairing of sockets 1 and 2 emits a
match_found whose payload holds the two profiles but no match identifier:
no match_found event of the run carries an id in its payload. -/
theorem C9_counterexample :
    pw2c.events
      = [Part0.Ev.waitingOpponent 1,
         Part0.Ev.matchFound (1, 2)
           (some { uid := 10, name := "a", avatar := "b" })
           (some { uid := 20, name := "c", avatar := "d" }) none] ∧
    (∀ e ∈ pw2c.events, Part0.mfCarriesId e = false) :=
  ⟨rfl, by decide⟩

/-- C9 amended: every match_found emitted on pairing goes to the broadcast
room both participants joined just before the emit and carries both player
profiles; the server.js payload also carries the match identifier, the
part_000 payload does not. -/
theorem C9_match_found (rng : Nat → Nat)
    (t : Part0.St) (w sid : Nat) (u : Part0.User)
    (hw : t.waitingPlayer = some w) (hne : w ≠ sid)
    (s : SrvJs.St) (w2 sid2 uid2 : Nat) (nm av : String)
    (hq : s.queue = [w2]) (hne2 : w2 ≠ sid2) :
    ((Part0.identify rng t sid u).events
        = t.events ++ [Part0.Ev.matchFound (w, sid)
            ((Part0.getSock t w).user) (some u) none]) ∧
    ((w, sid), w) ∈ (Part0.identify rng t sid u).joined ∧
    ((w, sid), sid) ∈ (Part0.identify rng t sid u).joined ∧
    ((SrvJs.identify rng s sid2 uid2 nm av).events
        = s.events ++ [SrvJs.Ev.matchFound (w2, sid2)
            ((SrvJs.getSock s w2).user)
            (some { uid := uid2, name := nm, avatar := av, score := 0 })
            (some (w2, sid2))]) ∧
    ((w2, sid2), w2) ∈ (SrvJs.identify rng s sid2 uid2 nm av).joined ∧
    ((w2, sid2), sid2) ∈ (SrvJs.identify rng s sid2 uid2 nm av).joined := by
  have hw' : (Part0.updSock t sid (fun sk => { sk with user := some u })).waitingPlayer
      = some w := by simp [Part0.updSock, hw]
  have hq' : (SrvJs.updSock s sid2 (fun sk =>
      { sk with user := some { uid := uid2, name := nm, avatar := av, score := 0 } })).queue
        = [w2] := by simp [SrvJs.updSock, hq]
  have hp := Part0.findMatch_pair_events rng _ sid w hw' hne
  have hs := SrvJs.matchmake_pair_events rng _ sid2 w2 hq' hne2
  refine ⟨?_, hp.2.1, hp.2.2, ?_, hs.2.1, hs.2.2⟩
  · rw [Part0.identify, hp.1]
    rw [Part0.getSock_updSock_ne t sid w _ hne, Part0.getSock_updSock_self]
    rfl
  · rw [SrvJs.identify, hs.1]
    rw [SrvJs.getSock_updSock_ne_srv s sid2 w2 _ hne2,
      SrvJs.getSock_updSock_self_srv]
    rfl

/-- Concrete part_000 state with socket 1 waiting. -/
def pw1c : Part0.St :=
  Part0.run rng0 Part0.init [Part0.Msg.identify 1 { uid := 10, name := "a", avatar := "b" }]

/-- Concrete server.js state with socket 1 queued. -/
def sw1c : SrvJs.St :=
  SrvJs.run rng0 SrvJs.init [SrvJs.Msg.identify 1 10 "a" "b"]

/-- Witness for the amended C9 at the concrete one-waiting states. -/
theorem C9_match_found_witness :
    (pw1c.waitingPlayer = some 1) ∧ (sw1c.queue = [1]) ∧
    (((Part0.identify rng0 pw1c 2 { uid := 20, name := "c", avatar := "d" }).events
        = pw1c.events ++ [Part0.Ev.matchFound (1, 2)
            ((Part0.getSock pw1c 1).user)
            (some { uid := 20, name := "c", avatar := "d" }) none]) ∧
      ((1, 2), 1) ∈ (Part0.identify rng0 pw1c 2 { uid := 20, name := "c", avatar := "d" }).joined ∧
      ((1, 2), 2) ∈ (Part0.identify rng0 pw1c 2 { uid := 20, name := "c", avatar := "d" }).joined ∧
      ((SrvJs.identify rng0 sw1c 2 20 "c" "d").events
        = sw1c.events ++ [SrvJs.Ev.matchFound (1, 2)
            ((SrvJs.getSock sw1c 1).user)
            (some { uid := 20, name := "c", avatar := "d", score := 0 })
            (some (1, 2))]) ∧
      ((1, 2), 1) ∈ (SrvJs.identify rng0 sw1c 2 20 "c" "d").joined ∧
      ((1, 2), 2) ∈ (SrvJs.identify rng0 sw1c 2 20 "c" "d").joined) :=
  ⟨rfl, rfl,
   C9_match_found rng0 pw1c 1 2 { uid := 20, name := "c", avatar := "d" } rfl (by decide)
     sw1c 1 2 20 "c" "d" rfl (by decide)⟩

/-- The event kinds the spec forbids after destruction, tagged with rid. -/
def Part0.evTouches (rid : Part0.RoomId) : Part0.Ev → Prop
  | .roundStart r _ _ _ _ => r = rid
  | .roundReveal r => r = rid
  | .scoreUpdate r _ => r = rid
  | _ => False

/-- Timer expirations and score submissions: the stimuli that can arrive
after a match was destroyed. -/
def Part0.quietMsg : Part0.Msg → Bool
  | .submit _ _ => true
  | .fire _ => true
  | _ => false

theorem Part0.submitScore_preserves_none (s : Part0.St) (sid : Nat) (pts : Int)
    (rid : Part0.RoomId) (h : lookupAL s.rooms rid = none) :
    lookupAL (Part0.submitScore s sid pts).rooms rid = none ∧
    ∀ e ∈ (Part0.submitScore s sid pts).events, e ∈ s.events ∨ ¬ Part0.evTouches rid e := by
  rcases h1 : Part0.roomIdOf s sid with _ | rid2
  · refine ⟨by simp [Part0.submitScore, h1, h], fun e he => Or.inl ?_⟩
    simpa [Part0.submitScore, h1] using he
  · rcases h2 : lookupAL s.rooms rid2 with _ | room
    · refine ⟨by simp [Part0.submitScore, h1, h2, h], fun e he => Or.inl ?_⟩
      simpa [Part0.submitScore, h1, h2] using he
    · have hne : rid ≠ rid2 := by
        rintro rfl; rw [h] at h2; cases h2
      rw [Part0.submitScore_effect s sid pts rid2 room h1 h2]
      constructor
      · simpa [lookupAL_setAL_ne _ _ _ _ hne] using h
      · intro e he
        rcases List.mem_append.mp he with he | he
        · exact Or.inl he
        · rcases List.mem_singleton.mp he with rfl
          exact Or.inr (fun hh => hne ((by exact hh : rid2 = rid)).symm)

theorem Part0.endGame_preserves_none (s : Part0.St) (target rid : Part0.RoomId)
    (h : lookupAL s.rooms rid = none) :
    lookupAL (Part0.endGame s target).rooms rid = none ∧
    ∀ e ∈ (Part0.endGame s target).events, e ∈ s.events ∨ ¬ Part0.evTouches rid e := by
  rcases h2 : lookupAL s.rooms target with _ | room
  · refine ⟨by simp [Part0.endGame, h2, h], fun e he => Or.inl ?_⟩
    simpa [Part0.endGame, h2] using he
  · have hne : rid ≠ target := by rintro rfl; rw [h] at h2; cases h2
    constructor
    · simp [Part0.endGame, h2, Part0.emit, lookupAL_delAL_ne _ _ _ hne, h]
    · intro e he
      simp only [Part0.endGame, h2, Part0.emit] at he
      rcases List.mem_append.mp he with he | he
      · exact Or.inl he
      · rcases List.mem_singleton.mp he with rfl
        exact Or.inr (fun hh => hh)

theorem Part0.startRound_preserves_none (rng : Nat → Nat) (s : Part0.St)
    (target rid : Part0.RoomId) (h : lookupAL s.rooms rid = none) :
    lookupAL (Part0.startRound rng s target).rooms rid = none ∧
    ∀ e ∈ (Part0.startRound rng s target).events, e ∈ s.events ∨ ¬ Part0.evTouches rid e := by
  rcases h2 : lookupAL s.rooms target with _ | room
  · refine ⟨by simp [Part0.startRound, h2, h], fun e he => Or.inl ?_⟩
    simpa [Part0.startRound, h2] using he
  · have hne : rid ≠ target := by rintro rfl; rw [h] at h2; cases h2
    by_cases hmax : room.maxRounds ≤ room.round
    · have hend := Part0.endGame_preserves_none s target rid h
      constructor
      · simpa [Part0.startRound, h2, hmax] using hend.1
      · simpa [Part0.startRound, h2, hmax] using hend.2
    · constructor
      · simp [Part0.startRound, h2, hmax, Part0.emit,
          lookupAL_setAL_ne _ _ _ _ hne, h]
      · intro e he
        simp only [Part0.startRound, h2, hmax, if_false, Part0.emit] at he
        rcases List.mem_append.mp he with he | he
        · exact Or.inl he
        · rcases List.mem_singleton.mp he with rfl
          exact Or.inr (fun hh => hne ((by exact hh : target = rid)).symm)

theorem Part0.revealRound_preserves_none (s : Part0.St)
    (target rid : Part0.RoomId) (h : lookupAL s.rooms rid = none) :
    lookupAL (Part0.revealRound s target).rooms rid = none ∧
    ∀ e ∈ (Part0.revealRound s target).events, e ∈ s.events ∨ ¬ Part0.evTouches rid e := by
  rcases h2 : lookupAL s.rooms target with _ | room
  · refine ⟨by simp [Part0.revealRound, h2, h], fun e he => Or.inl ?_⟩
    simpa [Part0.revealRound, h2] using he
  · have hne : rid ≠ target := by rintro rfl; rw [h] at h2; cases h2
    constructor
    · simp [Part0.revealRound, h2, Part0.emit, Part0.addTimer, h]
    · intro e he
      simp only [Part0.revealRound, h2, Part0.emit, Part0.addTimer] at he
      rcases List.mem_append.mp he with he | he
      · exact Or.inl he
      · rcases List.mem_singleton.mp he with rfl
        exact Or.inr (fun hh => hne ((by exact hh : target = rid)).symm)

theorem Part0.fireTimer_preserves_none (rng : Nat → Nat) (s : Part0.St) (t : Part0.Timer)
    (rid : Part0.RoomId) (h : lookupAL s.rooms rid = none) :
    lookupAL (Part0.fireTimer rng s t).rooms rid = none ∧
    ∀ e ∈ (Part0.fireTimer rng s t).events, e ∈ s.events ∨ ¬ Part0.evTouches rid e := by
  by_cases hm : t ∈ s.timers
  · have hrooms : ({ s with timers := s.timers.filter (fun t' => decide (t' ≠ t)) } :
        Part0.St).rooms = s.rooms := rfl
    cases hk : t.kind with
    | lobby =>
      have := Part0.startRound_preserves_none rng
        { s with timers := s.timers.filter (fun t' => decide (t' ≠ t)) } t.roomId rid h
      constructor
      · simpa [Part0.fireTimer, hm, hk] using this.1
      · simpa [Part0.fireTimer, hm, hk] using this.2
    | interval =>
      have := Part0.revealRound_preserves_none
        { s with timers := s.timers.filter (fun t' => decide (t' ≠ t)) } t.roomId rid h
      constructor
      · simpa [Part0.fireTimer, hm, hk] using this.1
      · simpa [Part0.fireTimer, hm, hk] using this.2
    | reveal =>
      have := Part0.startRound_preserves_none rng
        { s with timers := s.timers.filter (fun t' => decide (t' ≠ t)) } t.roomId rid h
      constructor
      · simpa [Part0.fireTimer, hm, hk] using this.1
      · simpa [Part0.fireTimer, hm, hk] using this.2
  · refine ⟨by simp [Part0.fireTimer, hm, h], fun e he => Or.inl ?_⟩
    simpa [Part0.fireTimer, hm] using he

theorem Part0.run_preserves_none (rng : Nat → Nat) :
    ∀ (ms : List Part0.Msg) (s : Part0.St) (rid : Part0.RoomId),
      lookupAL s.rooms rid = none → (∀ m ∈ ms, Part0.quietMsg m = true) →
      lookupAL (Part0.run rng s ms).rooms rid = none ∧
      ∀ e ∈ (Part0.run rng s ms).events, e ∈ s.events ∨ ¬ Part0.evTouches rid e := by
  intro ms
  induction ms with
  | nil => intro s rid h _; exact ⟨h, fun e he => Or.inl he⟩
  | cons m rest ih =>
    intro s rid h hq
    have hstep : lookupAL (Part0.stepMsg rng s m).rooms rid = none ∧
        ∀ e ∈ (Part0.stepMsg rng s m).events, e ∈ s.events ∨ ¬ Part0.evTouches rid e := by
      cases m with
      | identify sid u => exact absurd (hq _ (List.mem_cons_self _ _)) (by simp [Part0.quietMsg])
      | disconnect sid => exact absurd (hq _ (List.mem_cons_self _ _)) (by simp [Part0.quietMsg])
      | submit sid pts => exact Part0.submitScore_preserves_none s sid pts rid h
      | fire t => exact Part0.fireTimer_preserves_none rng s t rid h
    have hrest := ih (Part0.stepMsg rng s m) rid hstep.1
      (fun m2 hm2 => hq m2 (List.mem_cons_of_mem _ hm2))
    refine ⟨hrest.1, fun e he => ?_⟩
    rcases hrest.2 e he with he2 | he2
    · exact hstep.2 e he2
    · exact Or.inr he2

/-- The event kinds the spec forbids after destruction, tagged with rid. -/
def SrvJs.evTouches (rid : SrvJs.RoomId) : SrvJs.Ev → Prop
  | .roundStart r _ _ _ _ => r = rid
  | .roundReveal r => r = rid
  | .scoreUpdate r _ _ => r = rid
  | _ => False

/-- Timer expirations and score submissions. -/
def SrvJs.quietMsg : SrvJs.Msg → Bool
  | .submit _ _ => true
  | .fire _ => true
  | _ => false

theorem SrvJs.submitScore_preserves_none_srv (s : SrvJs.St) (sid : Nat) (pts : Int)
    (rid : SrvJs.RoomId) (h : lookupAL s.rooms rid = none) :
    lookupAL (SrvJs.submitScore s sid pts).rooms rid = none ∧
    ∀ e ∈ (SrvJs.submitScore s sid pts).events, e ∈ s.events ∨ ¬ SrvJs.evTouches rid e := by
  rcases h1 : SrvJs.roomIdOf s sid with _ | rid2
  · refine ⟨by simp [SrvJs.submitScore, h1, h], fun e he => Or.inl ?_⟩
    simpa [SrvJs.submitScore, h1] using he
  · rcases h2 : lookupAL s.rooms rid2 with _ | room
    · refine ⟨by simp [SrvJs.submitScore, h1, h2, h], fun e he => Or.inl ?_⟩
      simpa [SrvJs.submitScore, h1, h2] using he
    · have hne : rid ≠ rid2 := by rintro rfl; rw [h] at h2; cases h2
      rw [SrvJs.submitScore_effect_srv s sid pts rid2 room h1 h2]
      constructor
      · exact h
      · intro e he
        rcases List.mem_append.mp he with he | he
        · exact Or.inl he
        · rcases List.mem_singleton.mp he with rfl
          exact Or.inr (fun hh => hne ((by exact hh : rid2 = rid)).symm)

theorem SrvJs.nextRound_preserves_none (rng : Nat → Nat) (s : SrvJs.St)
    (target rid : SrvJs.RoomId) (h : lookupAL s.rooms rid = none) :
    lookupAL (SrvJs.nextRound rng s target).rooms rid = none ∧
    ∀ e ∈ (SrvJs.nextRound rng s target).events, e ∈ s.events ∨ ¬ SrvJs.evTouches rid e := by
  rcases h2 : lookupAL s.rooms target with _ | room
  · refine ⟨by simp [SrvJs.nextRound, h2, h], fun e he => Or.inl ?_⟩
    simpa [SrvJs.nextRound, h2] using he
  · have hne : rid ≠ target := by rintro rfl; rw [h] at h2; cases h2
    by_cases hmax : room.maxRounds ≤ room.round
    · constructor
      · simp [SrvJs.nextRound, h2, hmax, SrvJs.emit, lookupAL_delAL_ne _ _ _ hne, h]
      · intro e he
        simp only [SrvJs.nextRound, h2, hmax, if_true, SrvJs.emit] at he
        rcases List.mem_append.mp he with he | he
        · exact Or.inl he
        · rcases List.mem_singleton.mp he with rfl
          exact Or.inr (fun hh => hh)
    · constructor
      · simp [SrvJs.nextRound, h2, hmax, SrvJs.emit, SrvJs.addTimer,
          lookupAL_setAL_ne _ _ _ _ hne, h]
      · intro e he
        simp only [SrvJs.nextRound, h2, hmax, if_false, SrvJs.emit, SrvJs.addTimer] at he
        rcases List.mem_append.mp he with he | he
        · exact Or.inl he
        · rcases List.mem_singleton.mp he with rfl
          exact Or.inr (fun hh => hne ((by exact hh : target = rid)).symm)

theorem SrvJs.startGameLoop_preserves_none (rng : Nat → Nat) (s : SrvJs.St)
    (target rid : SrvJs.RoomId) (h : lookupAL s.rooms rid = none) :
    lookupAL (SrvJs.startGameLoop rng s target).rooms rid = none ∧
    ∀ e ∈ (SrvJs.startGameLoop rng s target).events, e ∈ s.events ∨ ¬ SrvJs.evTouches rid e := by
  rcases h2 : lookupAL s.rooms target with _ | room
  · refine ⟨by simp [SrvJs.startGameLoop, h2, h], fun e he => Or.inl ?_⟩
    simpa [SrvJs.startGameLoop, h2] using he
  · have hnext := SrvJs.nextRound_preserves_none rng s target rid h
    constructor
    · simpa [SrvJs.startGameLoop, h2] using hnext.1
    · simpa [SrvJs.startGameLoop, h2] using hnext.2

theorem SrvJs.fireTimer_preserves_none_srv (rng : Nat → Nat) (s : SrvJs.St) (t : SrvJs.Timer)
    (rid : SrvJs.RoomId) (h : lookupAL s.rooms rid = none) :
    lookupAL (SrvJs.fireTimer rng s t).rooms rid = none ∧
    ∀ e ∈ (SrvJs.fireTimer rng s t).events, e ∈ s.events ∨ ¬ SrvJs.evTouches rid e := by
  by_cases hm : t ∈ s.timers
  · cases hk : t.kind with
    | gameLoopStart =>
      have := SrvJs.startGameLoop_preserves_none rng
        { s with timers := s.timers.filter (fun t' => decide (t' ≠ t)) } t.roomId rid h
      constructor
      · simpa [SrvJs.fireTimer, hm, hk] using this.1
      · simpa [SrvJs.fireTimer, hm, hk] using this.2
    | roundEnd =>
      rcases h2 : lookupAL s.rooms t.roomId with _ | room
      · refine ⟨by simp [SrvJs.fireTimer, hm, hk, h2, h], fun e he => Or.inl ?_⟩
        simpa [SrvJs.fireTimer, hm, hk, h2] using he
      · have hne : rid ≠ t.roomId := by rintro rfl; rw [h] at h2; cases h2
        constructor
        · simp [SrvJs.fireTimer, hm, hk, h2, SrvJs.emit, SrvJs.addTimer, h]
        · intro e he
          simp only [SrvJs.fireTimer, hm, hk, h2, if_true, SrvJs.emit, SrvJs.addTimer] at he
          rcases List.mem_append.mp he with he | he
          · exact Or.inl he
          · rcases List.mem_singleton.mp he with rfl
            exact Or.inr (fun hh => hne ((by exact hh : t.roomId = rid)).symm)
    | revealEnd =>
      rcases h2 : lookupAL s.rooms t.roomId with _ | room
      · refine ⟨by simp [SrvJs.fireTimer, hm, hk, h2, h], fun e he => Or.inl ?_⟩
        simpa [SrvJs.fireTimer, hm, hk, h2] using he
      · have := SrvJs.nextRound_preserves_none rng
          { s with timers := s.timers.filter (fun t' => decide (t' ≠ t)) } t.roomId rid h
        constructor
        · simpa [SrvJs.fireTimer, hm, hk, h2] using this.1
        · simpa [SrvJs.fireTimer, hm, hk, h2] using this.2
  · refine ⟨by simp [SrvJs.fireTimer, hm, h], fun e he => Or.inl ?_⟩
    simpa [SrvJs.fireTimer, hm] using he

theorem SrvJs.run_preserves_none_srv (rng : Nat → Nat) :
    ∀ (ms : List SrvJs.Msg) (s : SrvJs.St) (rid : SrvJs.RoomId),
      lookupAL s.rooms rid = none → (∀ m ∈ ms, SrvJs.quietMsg m = true) →
      lookupAL (SrvJs.run rng s ms).rooms rid = none ∧
      ∀ e ∈ (SrvJs.run rng s ms).events, e ∈ s.events ∨ ¬ SrvJs.evTouches rid e := by
  intro ms
  induction ms with
  | nil => intro s rid h _; exact ⟨h, fun e he => Or.inl he⟩
  | cons m rest ih =>
    intro s rid h hq
    have hstep : lookupAL (SrvJs.stepMsg rng s m).rooms rid = none ∧
        ∀ e ∈ (SrvJs.stepMsg rng s m).events, e ∈ s.events ∨ ¬ SrvJs.evTouches rid e := by
      cases m with
      | identify sid uid name avatar =>
        exact absurd (hq _ (List.mem_cons_self _ _)) (by simp [SrvJs.quietMsg])
      | disconnect sid =>
        exact absurd (hq _ (List.mem_cons_self _ _)) (by simp [SrvJs.quietMsg])
      | submit sid pts => exact SrvJs.submitScore_preserves_none_srv s sid pts rid h
      | fire t => exact SrvJs.fireTimer_preserves_none_srv rng s t rid h
    have hrest := ih (SrvJs.stepMsg rng s m) rid hstep.1
      (fun m2 hm2 => hq m2 (List.mem_cons_of_mem _ hm2))
    refine ⟨hrest.1, fun e he => ?_⟩
    rcases hrest.2 e he with he2 | he2
    · exact hstep.2 e he2
    · exact Or.inr he2

/-- C1: once a match id has been destroyed (absent from the registry,
whether after the final reveal or on a disconnect), any sequence of timer
expirations and score submissions keeps it absent and never emits another
round_start, round_reveal or score_update for that id: every such stimulus
is a safe no-op behind the registry lookup, and a submission routed to the
destroyed id leaves the state entirely unchanged.  Both variants. -/
theorem C1_no_events_after_destruction (rng : Nat → Nat) :
    (∀ (s : Part0.St) (rid : Part0.RoomId) (ms : List Part0.Msg),
      lookupAL s.rooms rid = none → (∀ m ∈ ms, Part0.quietMsg m = true) →
      lookupAL (Part0.run rng s ms).rooms rid = none ∧
      ∀ e ∈ (Part0.run rng s ms).events, e ∈ s.events ∨ ¬ Part0.evTouches rid e) ∧
    (∀ (s : Part0.St) (sid : Nat) (pts : Int) (rid : Part0.RoomId),
      Part0.roomIdOf s sid = some rid → lookupAL s.rooms rid = none →
      Part0.submitScore s sid pts = s) ∧
    (∀ (s : SrvJs.St) (rid : SrvJs.RoomId) (ms : List SrvJs.Msg),
      lookupAL s.rooms rid = none → (∀ m ∈ ms, SrvJs.quietMsg m = true) →
      lookupAL (SrvJs.run rng s ms).rooms rid = none ∧
      ∀ e ∈ (SrvJs.run rng s ms).events, e ∈ s.events ∨ ¬ SrvJs.evTouches rid e) ∧
    (∀ (s : SrvJs.St) (sid : Nat) (pts : Int) (rid : SrvJs.RoomId),
      SrvJs.roomIdOf s sid = some rid → lookupAL s.rooms rid = none →
      SrvJs.submitScore s sid pts = s) := by
  refine ⟨fun s rid ms h hq => Part0.run_preserves_none rng ms s rid h hq, ?_,
    fun s rid ms h hq => SrvJs.run_preserves_none_srv rng ms s rid h hq, ?_⟩
  · intro s sid pts rid h1 h
    simp [Part0.submitScore, h1, h]
  · intro s sid pts rid h1 h
    simp [SrvJs.submitScore, h1, h]

/-- Concrete part_000 state: pair sockets 1 and 2, then socket 1
disconnects, destroying the room while the lobby timer is still pending. -/
def pd3c : Part0.St :=
  Part0.run rng0 Part0.init
    [Part0.Msg.identify 1 { uid := 10, name := "a", avatar := "b" },
     Part0.Msg.identify 2 { uid := 20, name := "c", avatar := "d" },
     Part0.Msg.disconnect 1]

/-- Concrete server.js state: pair sockets 1 and 2, then socket 1
disconnects, destroying the room while the lobby timer is still pending. -/
def sd3c : SrvJs.St :=
  SrvJs.run rng0 SrvJs.init
    [SrvJs.Msg.identify 1 10 "a" "b", SrvJs.Msg.identify 2 20 "c" "d",
     SrvJs.Msg.disconnect 1]

/-- Witness for C1: fire the stale lobby timer and submit a late score
against the destroyed id in both variants. -/
theorem C1_no_events_after_destruction_witness :
    (lookupAL pd3c.rooms (1, 2) = none) ∧
    (lookupAL (Part0.run rng0 pd3c
        [Part0.Msg.fire { tid := 0, kind := .lobby, roomId := (1, 2) },
         Part0.Msg.submit 2 5]).rooms (1, 2) = none ∧
      ∀ e ∈ (Part0.run rng0 pd3c
        [Part0.Msg.fire { tid := 0, kind := .lobby, roomId := (1, 2) },
         Part0.Msg.submit 2 5]).events, e ∈ pd3c.events ∨ ¬ Part0.evTouches (1, 2) e) ∧
    (lookupAL sd3c.rooms (1, 2) = none) ∧
    (lookupAL (SrvJs.run rng0 sd3c
        [SrvJs.Msg.fire { tid := 0, kind := .gameLoopStart, roomId := (1, 2) },
         SrvJs.Msg.submit 2 5]).rooms (1, 2) = none ∧
      ∀ e ∈ (SrvJs.run rng0 sd3c
        [SrvJs.Msg.fire { tid := 0, kind := .gameLoopStart, roomId := (1, 2) },
         SrvJs.Msg.submit 2 5]).events, e ∈ sd3c.events ∨ ¬ SrvJs.evTouches (1, 2) e) :=
  ⟨rfl,
   (C1_no_events_after_destruction rng0).1 pd3c (1, 2)
     [Part0.Msg.fire { tid := 0, kind := .lobby, roomId := (1, 2) }, Part0.Msg.submit 2 5]
     rfl (by decide),
   rfl,
   (C1_no_events_after_destruction rng0).2.2.1 sd3c (1, 2)
     [SrvJs.Msg.fire { tid := 0, kind := .gameLoopStart, roomId := (1, 2) },
      SrvJs.Msg.submit 2 5]
     rfl (by decide)⟩

/-- Invariant for C4: the round counter of every registered room is bounded by
its maxRounds, which is the constant 15. -/
def Part0.RoundsBounded (s : Part0.St) : Prop :=
  ∀ rid room, lookupAL s.rooms rid = some room →
    room.round ≤ room.maxRounds ∧ room.maxRounds = 15

theorem Part0.identify_rounds (rng : Nat → Nat) (s : Part0.St) (sid : Nat) (u : Part0.User)
    (hI : Part0.RoundsBounded s) : Part0.RoundsBounded (Part0.identify rng s sid u) := by
  rcases hw : (Part0.updSock s sid (fun sk => { sk with user := some u })).waitingPlayer
    with _ | w
  · intro rid room hr
    simp only [Part0.identify, Part0.findMatch, hw, Part0.emit] at hr
    exact hI rid room hr
  · intro rid room hr
    rw [Part0.identify, Part0.findMatch_pair_rooms rng _ sid w hw, lookupAL_setAL] at hr
    by_cases he : rid = (w, sid)
    · rw [if_pos he] at hr
      cases hr
      exact ⟨by simp [Part0.pairedRoom], rfl⟩
    · rw [if_neg he] at hr
      exact hI rid room hr

theorem Part0.submitScore_rounds (s : Part0.St) (sid : Nat) (pts : Int)
    (hI : Part0.RoundsBounded s) : Part0.RoundsBounded (Part0.submitScore s sid pts) := by
  intro rid room hr
  rcases h1 : Part0.roomIdOf s sid with _ | rid2
  · simp only [Part0.submitScore, h1] at hr; exact hI rid room hr
  · rcases h2 : lookupAL s.rooms rid2 with _ | r0
    · simp only [Part0.submitScore, h1, h2] at hr; exact hI rid room hr
    · rw [Part0.submitScore_effect s sid pts rid2 r0 h1 h2] at hr
      simp only at hr
      rw [lookupAL_setAL] at hr
      by_cases he : rid = rid2
      · rw [if_pos he] at hr
        cases hr
        exact hI rid2 r0 h2
      · rw [if_neg he] at hr
        exact hI rid room hr

theorem Part0.handleDisconnect_rounds (s : Part0.St) (sid : Nat)
    (hI : Part0.RoundsBounded s) : Part0.RoundsBounded (Part0.handleDisconnect s sid) := by
  simp only [Part0.handleDisconnect]
  generalize hs0 : (if s.waitingPlayer = some sid then
      { s with waitingPlayer := none } else s) = s0
  have hI0 : Part0.RoundsBounded s0 := by
    rw [← hs0]
    by_cases hw : s.waitingPlayer = some sid
    · rw [if_pos hw]; exact fun rid room hr => hI rid room hr
    · rw [if_neg hw]; exact hI
  rcases h1 : Part0.roomIdOf s0 sid with _ | rid2
  · simp only [h1]; exact hI0
  · rcases h2 : lookupAL s0.rooms rid2 with _ | r0
    · simp only [h1, h2]; exact hI0
    · simp only [h1, h2]
      intro rid room hr
      rcases ht : r0.timer with _ | tid <;> simp only [ht] at hr <;>
        rw [lookupAL_delAL] at hr
      · by_cases he : rid = rid2
        · rw [if_pos he] at hr; cases hr
        · rw [if_neg he] at hr; exact hI0 rid room hr
      · by_cases he : rid = rid2
        · rw [if_pos he] at hr; cases hr
        · rw [if_neg he] at hr; exact hI0 rid room hr

theorem Part0.endGame_rounds (s : Part0.St) (target : Part0.RoomId)
    (hI : Part0.RoundsBounded s) : Part0.RoundsBounded (Part0.endGame s target) := by
  intro rid room hr
  rcases h2 : lookupAL s.rooms target with _ | r0
  · simp only [Part0.endGame, h2] at hr; exact hI rid room hr
  · simp only [Part0.endGame, h2, Part0.emit] at hr
    rw [lookupAL_delAL] at hr
    by_cases he : rid = target
    · rw [if_pos he] at hr; cases hr
    · rw [if_neg he] at hr; exact hI rid room hr

theorem Part0.startRound_rounds (rng : Nat → Nat) (s : Part0.St) (target : Part0.RoomId)
    (hI : Part0.RoundsBounded s) : Part0.RoundsBounded (Part0.startRound rng s target) := by
  rcases h2 : lookupAL s.rooms target with _ | r0
  · intro rid room hr
    simp only [Part0.startRound, h2] at hr; exact hI rid room hr
  · by_cases hmax : r0.maxRounds ≤ r0.round
    · intro rid room hr
      simp only [Part0.startRound, h2, hmax, if_true] at hr
      exact Part0.endGame_rounds s target hI rid room hr
    · intro rid room hr
      simp only [Part0.startRound, h2, hmax, if_false, Part0.emit] at hr
      rw [lookupAL_setAL] at hr
      by_cases he : rid = target
      · rw [if_pos he] at hr
        cases hr
        refine ⟨?_, (hI target r0 h2).2⟩
        simp only
        omega
      · rw [if_neg he] at hr
        exact hI rid room hr

theorem Part0.revealRound_rounds (s : Part0.St) (target : Part0.RoomId)
    (hI : Part0.RoundsBounded s) : Part0.RoundsBounded (Part0.revealRound s target) := by
  intro rid room hr
  rcases h2 : lookupAL s.rooms target with _ | r0
  · simp only [Part0.revealRound, h2] at hr; exact hI rid room hr
  · simp only [Part0.revealRound, h2, Part0.emit, Part0.addTimer] at hr
    exact hI rid room hr

theorem Part0.fireTimer_rounds (rng : Nat → Nat) (s : Part0.St) (t : Part0.Timer)
    (hI : Part0.RoundsBounded s) : Part0.RoundsBounded (Part0.fireTimer rng s t) := by
  by_cases hm : t ∈ s.timers
  · have hI1 : Part0.RoundsBounded
        { s with timers := s.timers.filter (fun t' => decide (t' ≠ t)) } :=
      fun rid room hr => hI rid room hr
    cases hk : t.kind with
    | lobby =>
      intro rid room hr
      simp only [Part0.fireTimer, hm, hk, if_pos] at hr
      exact Part0.startRound_rounds rng _ t.roomId hI1 rid room hr
    | interval =>
      intro rid room hr
      simp only [Part0.fireTimer, hm, hk, if_pos] at hr
      exact Part0.revealRound_rounds _ t.roomId hI1 rid room hr
    | reveal =>
      intro rid room hr
      simp only [Part0.fireTimer, hm, hk, if_pos] at hr
      exact Part0.startRound_rounds rng _ t.roomId hI1 rid room hr
  · intro rid room hr
    simp only [Part0.fireTimer, hm, if_neg, if_false] at hr
    exact hI rid room hr

theorem Part0.run_rounds (rng : Nat → Nat) :
    ∀ (ms : List Part0.Msg) (s : Part0.St), Part0.RoundsBounded s →
      Part0.RoundsBounded (Part0.run rng s ms) := by
  intro ms
  induction ms with
  | nil => intro s hI; exact hI
  | cons m rest ih =>
    intro s hI
    refine ih _ ?_
    cases m with
    | identify sid u => exact Part0.identify_rounds rng s sid u hI
    | disconnect sid => exact Part0.handleDisconnect_rounds s sid hI
    | submit sid pts => exact Part0.submitScore_rounds s sid pts hI
    | fire t => exact Part0.fireTimer_rounds rng s t hI

/-- Invariant for C4 in the server.js variant. -/
def SrvJs.RoundsBounded (s : SrvJs.St) : Prop :=
  ∀ rid room, lookupAL s.rooms rid = some room →
    room.round ≤ room.maxRounds ∧ room.maxRounds = 15

theorem SrvJs.matchmake_some_rooms (rng : Nat → Nat) (s : SrvJs.St) (sid w : Nat)
    (hq : s.queue.getLast? = some w) :
    (SrvJs.matchmake rng s sid).rooms =
      setAL s.rooms (w, sid) (SrvJs.pairedRoom rng w sid s.randIdx) := by
  simp [SrvJs.matchmake, hq, SrvJs.updSock, SrvJs.emit, SrvJs.addTimer, SrvJs.pairedRoom]

theorem SrvJs.identify_rounds_srv (rng : Nat → Nat) (s : SrvJs.St) (sid uid : Nat)
    (nm av : String) (hI : SrvJs.RoundsBounded s) :
    SrvJs.RoundsBounded (SrvJs.identify rng s sid uid nm av) := by
  rcases hq : s.queue.getLast? with _ | w
  · intro rid room hr
    have hq' : (SrvJs.updSock s sid (fun sk =>
        { sk with user := some { uid := uid, name := nm, avatar := av, score := 0 } })).queue.getLast?
          = none := hq
    simp only [SrvJs.identify, SrvJs.matchmake, hq', SrvJs.emit] at hr
    exact hI rid room hr
  · intro rid room hr
    have hq' : (SrvJs.updSock s sid (fun sk =>
        { sk with user := some { uid := uid, name := nm, avatar := av, score := 0 } })).queue.getLast?
          = some w := hq
    rw [SrvJs.identify, SrvJs.matchmake_some_rooms rng _ sid w hq', lookupAL_setAL] at hr
    by_cases he : rid = (w, sid)
    · rw [if_pos he] at hr
      cases hr
      exact ⟨by simp [SrvJs.pairedRoom], rfl⟩
    · rw [if_neg he] at hr
      exact hI rid room hr

theorem SrvJs.submitScore_rounds_srv (s : SrvJs.St) (sid : Nat) (pts : Int)
    (hI : SrvJs.RoundsBounded s) : SrvJs.RoundsBounded (SrvJs.submitScore s sid pts) := by
  intro rid room hr
  rcases h1 : SrvJs.roomIdOf s sid with _ | rid2
  · simp only [SrvJs.submitScore, h1] at hr; exact hI rid room hr
  · rcases h2 : lookupAL s.rooms rid2 with _ | r0
    · simp only [SrvJs.submitScore, h1, h2] at hr; exact hI rid room hr
    · simp only [SrvJs.submitScore, h1, h2, SrvJs.emit, SrvJs.updSock] at hr
      exact hI rid room hr

theorem SrvJs.handleDisconnect_rounds_srv (s : SrvJs.St) (sid : Nat)
    (hI : SrvJs.RoundsBounded s) : SrvJs.RoundsBounded (SrvJs.handleDisconnect s sid) := by
  simp only [SrvJs.handleDisconnect]
  rcases h1 : SrvJs.roomIdOf { s with queue := removeFirst s.queue sid } sid with _ | rid2
  · simp only [h1]; exact fun rid room hr => hI rid room hr
  · rcases h2 : lookupAL s.rooms rid2 with _ | r0
    · simp only [h1, h2]; exact fun rid room hr => hI rid room hr
    · simp only [h1, h2, SrvJs.emit]
      intro rid room hr
      rw [lookupAL_delAL] at hr
      by_cases he : rid = rid2
      · rw [if_pos he] at hr; cases hr
      · rw [if_neg he] at hr; exact hI rid room hr

theorem SrvJs.nextRound_rounds (rng : Nat → Nat) (s : SrvJs.St) (target : SrvJs.RoomId)
    (hI : SrvJs.RoundsBounded s) : SrvJs.RoundsBounded (SrvJs.nextRound rng s target) := by
  rcases h2 : lookupAL s.rooms target with _ | r0
  · intro rid room hr
    simp only [SrvJs.nextRound, h2] at hr; exact hI rid room hr
  · by_cases hmax : r0.maxRounds ≤ r0.round
    · intro rid room hr
      simp only [SrvJs.nextRound, h2, hmax, if_true, SrvJs.emit] at hr
      rw [lookupAL_delAL] at hr
      by_cases he : rid = target
      · rw [if_pos he] at hr; cases hr
      · rw [if_neg he] at hr; exact hI rid room hr
    · intro rid room hr
      simp only [SrvJs.nextRound, h2, hmax, if_false, SrvJs.emit, SrvJs.addTimer] at hr
      rw [lookupAL_setAL] at hr
      by_cases he : rid = target
      · rw [if_pos he] at hr
        cases hr
        refine ⟨?_, (hI target r0 h2).2⟩
        simp only
        omega
      · rw [if_neg he] at hr
        exact hI rid room hr

theorem SrvJs.startGameLoop_rounds (rng : Nat → Nat) (s : SrvJs.St) (target : SrvJs.RoomId)
    (hI : SrvJs.RoundsBounded s) : SrvJs.RoundsBounded (SrvJs.startGameLoop rng s target) := by
  rcases h2 : lookupAL s.rooms target with _ | r0
  · intro rid room hr
    simp only [SrvJs.startGameLoop, h2] at hr; exact hI rid room hr
  · intro rid room hr
    simp only [SrvJs.startGameLoop, h2] at hr
    exact SrvJs.nextRound_rounds rng s target hI rid room hr

theorem SrvJs.fireTimer_rounds_srv (rng : Nat → Nat) (s : SrvJs.St) (t : SrvJs.Timer)
    (hI : SrvJs.RoundsBounded s) : SrvJs.RoundsBounded (SrvJs.fireTimer rng s t) := by
  by_cases hm : t ∈ s.timers
  · have hI1 : SrvJs.RoundsBounded
        { s with timers := s.timers.filter (fun t' => decide (t' ≠ t)) } :=
      fun rid room hr => hI rid room hr
    cases hk : t.kind with
    | gameLoopStart =>
      intro rid room hr
      simp only [SrvJs.fireTimer, hm, hk, if_pos] at hr
      exact SrvJs.startGameLoop_rounds rng _ t.roomId hI1 rid room hr
    | roundEnd =>
      intro rid room hr
      rcases h2 : lookupAL s.rooms t.roomId with _ | r0 <;>
        simp only [SrvJs.fireTimer, hm, hk, if_pos, h2, SrvJs.emit, SrvJs.addTimer] at hr <;>
        exact hI rid room hr
    | revealEnd =>
      intro rid room hr
      rcases h2 : lookupAL s.rooms t.roomId with _ | r0
      · simp only [SrvJs.fireTimer, hm, hk, if_pos, h2] at hr
        exact hI rid room hr
      · simp only [SrvJs.fireTimer, hm, hk, if_pos, h2] at hr
        exact SrvJs.nextRound_rounds rng _ t.roomId hI1 rid room hr
  · intro rid room hr
    simp only [SrvJs.fireTimer, hm, if_neg, if_false] at hr
    exact hI rid room hr

theorem SrvJs.run_rounds_srv (rng : Nat → Nat) :
    ∀ (ms : List SrvJs.Msg) (s : SrvJs.St), SrvJs.RoundsBounded s →
      SrvJs.RoundsBounded (SrvJs.run rng s ms) := by
  intro ms
  induction ms with
  | nil => intro s hI; exact hI
  | cons m rest ih =>
    intro s hI
    refine ih _ ?_
    cases m with
    | identify sid uid nm av => exact SrvJs.identify_rounds_srv rng s sid uid nm av hI
    | disconnect sid => exact SrvJs.handleDisconnect_rounds_srv s sid hI
    | submit sid pts => exact SrvJs.submitScore_rounds_srv s sid pts hI
    | fire t => exact SrvJs.fireTimer_rounds_srv rng s t hI

/-- C4: in every reachable state, every registered room satisfies
round less-or-equal maxRounds = 15; a scheduler step on a room whose
counter is below maxRounds increments it by exactly 1 and emits the
round_start for the new round (GUESSING entry); once the counter has
reached maxRounds, the next scheduler step emits game_over and unregisters
the room (the ENDED transition) instead of starting another round.  Both
variants (startRound in part_000, the nextRound loop body in server.js). -/
theorem C4_round_counter (rng : Nat → Nat) :
    (∀ (ms : List Part0.Msg) (rid : Part0.RoomId) (room : Part0.Room),
      lookupAL (Part0.run rng Part0.init ms).rooms rid = some room →
      room.round ≤ room.maxRounds ∧ room.maxRounds = 15) ∧
    (∀ (s : Part0.St) (rid : Part0.RoomId) (room : Part0.Room),
      lookupAL s.rooms rid = some room → room.round < room.maxRounds →
      lookupAL (Part0.startRound rng s rid).rooms rid
        = some { room with round := room.round + 1, timer := some s.nextTimer } ∧
      (Part0.startRound rng s rid).events
        = s.events ++ [Part0.Ev.roundStart rid (room.round + 1)
            (room.deck.getD room.round 0) (randFloor rng s.randIdx 11 + 40) 20]) ∧
    (∀ (s : Part0.St) (rid : Part0.RoomId) (room : Part0.Room),
      lookupAL s.rooms rid = some room → room.maxRounds ≤ room.round →
      (Part0.startRound rng s rid).events
        = s.events ++ [Part0.Ev.gameOver rid room.scores] ∧
      lookupAL (Part0.startRound rng s rid).rooms rid = none) ∧
    (∀ (ms : List SrvJs.Msg) (rid : SrvJs.RoomId) (room : SrvJs.Room),
      lookupAL (SrvJs.run rng SrvJs.init ms).rooms rid = some room →
      room.round ≤ room.maxRounds ∧ room.maxRounds = 15) ∧
    (∀ (s : SrvJs.St) (rid : SrvJs.RoomId) (room : SrvJs.Room),
      lookupAL s.rooms rid = some room → room.round < room.maxRounds →
      lookupAL (SrvJs.nextRound rng s rid).rooms rid
        = some { room with round := room.round + 1 } ∧
      (SrvJs.nextRound rng s rid).events
        = s.events ++ [SrvJs.Ev.roundStart rid (room.round + 1)
            (room.deck.getD room.round 0) (randFloor rng s.randIdx 11 + 40) 20]) ∧
    (∀ (s : SrvJs.St) (rid : SrvJs.RoomId) (room : SrvJs.Room),
      lookupAL s.rooms rid = some room → room.maxRounds ≤ room.round →
      (SrvJs.nextRound rng s rid).events
        = s.events ++ [SrvJs.Ev.gameOver rid
            (SrvJs.scoreOf s room.p1) (SrvJs.scoreOf s room.p2)] ∧
      lookupAL (SrvJs.nextRound rng s rid).rooms rid = none) := by
  refine ⟨?_, ?_, ?_, ?_, ?_, ?_⟩
  · intro ms rid room hr
    refine Part0.run_rounds rng ms Part0.init ?_ rid room hr
    intro rid2 room2 hr2
    simp [Part0.init, lookupAL] at hr2
  · intro s rid room h2 hlt
    have hmax : ¬ room.maxRounds ≤ room.round := Nat.not_le.mpr hlt
    constructor
    · simp only [Part0.startRound, h2, hmax, if_false, Part0.emit]
      rw [lookupAL_setAL_self]
    · simp only [Part0.startRound, h2, hmax, if_false, Part0.emit]
      simp
  · intro s rid room h2 hmax
    constructor
    · simp only [Part0.startRound, h2, hmax, if_true, Part0.endGame, Part0.emit]
    · simp only [Part0.startRound, h2, hmax, if_true, Part0.endGame, Part0.emit]
      rw [lookupAL_delAL_self]
  · intro ms rid room hr
    refine SrvJs.run_rounds_srv rng ms SrvJs.init ?_ rid room hr
    intro rid2 room2 hr2
    simp [SrvJs.init, lookupAL] at hr2
  · intro s rid room h2 hlt
    have hmax : ¬ room.maxRounds ≤ room.round := Nat.not_le.mpr hlt
    constructor
    · simp only [SrvJs.nextRound, h2, hmax, if_false, SrvJs.emit, SrvJs.addTimer]
      rw [lookupAL_setAL_self]
    · simp only [SrvJs.nextRound, h2, hmax, if_false, SrvJs.emit, SrvJs.addTimer]
      simp
  · intro s rid room h2 hmax
    constructor
    · simp only [SrvJs.nextRound, h2, hmax, if_true, SrvJs.emit]
    · simp only [SrvJs.nextRound, h2, hmax, if_true, SrvJs.emit]
      rw [lookupAL_delAL_self]

/-- Witness for C4 at concrete inputs: the fresh pair (round 0 < 15)
and a hand-built room whose counter has reached 15. -/
def c4endroom : Part0.Room :=
  { Part0.pairedRoom rng0 1 2 0 with round := 15 }

def c4endstate : Part0.St :=
  { pd3c with rooms := [((1, 2), c4endroom)] }

def c4endroomS : SrvJs.Room :=
  { SrvJs.pairedRoom rng0 1 2 0 with round := 15 }

def c4endstateS : SrvJs.St :=
  { sd3c with rooms := [((1, 2), c4endroomS)] }

theorem C4_round_counter_witness :
    (lookupAL (Part0.run rng0 Part0.init
        [Part0.Msg.identify 1 { uid := 10, name := "a", avatar := "b" },
         Part0.Msg.identify 2 { uid := 20, name := "c", avatar := "d" }]).rooms (1, 2)
      = some (Part0.pairedRoom rng0 1 2 0) →
      (Part0.pairedRoom rng0 1 2 0).round ≤ (Part0.pairedRoom rng0 1 2 0).maxRounds ∧
      (Part0.pairedRoom rng0 1 2 0).maxRounds = 15) ∧
    (lookupAL (Part0.startRound rng0 pw2c (1, 2)).rooms (1, 2)
      = some { Part0.pairedRoom rng0 1 2 0 with round := 0 + 1, timer := some pw2c.nextTimer }) ∧
    ((Part0.startRound rng0 c4endstate (1, 2)).events
      = c4endstate.events ++ [Part0.Ev.gameOver (1, 2) c4endroom.scores] ∧
     lookupAL (Part0.startRound rng0 c4endstate (1, 2)).rooms (1, 2) = none) ∧
    (lookupAL (SrvJs.nextRound rng0 sw2c (1, 2)).rooms (1, 2)
      = some { SrvJs.pairedRoom rng0 1 2 0 with round := 0 + 1 }) ∧
    ((SrvJs.nextRound rng0 c4endstateS (1, 2)).events
      = c4endstateS.events ++ [SrvJs.Ev.gameOver (1, 2)
          (SrvJs.scoreOf c4endstateS c4endroomS.p1) (SrvJs.scoreOf c4endstateS c4endroomS.p2)] ∧
     lookupAL (SrvJs.nextRound rng0 c4endstateS (1, 2)).rooms (1, 2) = none) :=
  ⟨fun h => (C4_round_counter rng0).1
      [Part0.Msg.identify 1 { uid := 10, name := "a", avatar := "b" },
       Part0.Msg.identify 2 { uid := 20, name := "c", avatar := "d" }] (1, 2)
      (Part0.pairedRoom rng0 1 2 0) h,
   ((C4_round_counter rng0).2.1 pw2c (1, 2) (Part0.pairedRoom rng0 1 2 0)
      rfl (by decide)).1,
   (C4_round_counter rng0).2.2.1 c4endstate (1, 2) c4endroom rfl (by decide),
   ((C4_round_counter rng0).2.2.2.2.1 sw2c (1, 2) (SrvJs.pairedRoom rng0 1 2 0)
      rfl (by decide)).1,
   (C4_round_counter rng0).2.2.2.2.2 c4endstateS (1, 2) c4endroomS rfl (by decide)⟩

/-- C6 counterexample: in both variants, pairing sockets 1 and 2 and then
disconnecting socket 1 destroys the room while the 3 second lobby timer it
scheduled is still pending: destruction did not cancel it (server.js
cancels nothing at all; part_000 clears only the stored interval timer,
which does not exist yet in the lobby phase). -/
theorem C6_counterexample :
    lookupAL sd3c.rooms (1, 2) = none ∧
    ({ tid := 0, kind := SrvJs.TimerKind.gameLoopStart, roomId := (1, 2) } : SrvJs.Timer)
      ∈ sd3c.timers ∧
    lookupAL pd3c.rooms (1, 2) = none ∧
    ({ tid := 0, kind := Part0.TimerKind.lobby, roomId := (1, 2) } : Part0.Timer)
      ∈ pd3c.timers :=
  ⟨rfl, by decide, rfl, by decide⟩

/-- C6 amended: destroying a match on disconnect cancels its stored
interval timer in the part_000 variant and unregisters the room; the
server.js disconnect handler cancels no timer at all, and the other part_000
timeouts are likewise left pending; any stale timer that fires against a
destroyed id emits nothing and leaves the room registry unchanged. -/
theorem C6_timer_cancellation (rng : Nat → Nat) :
    (∀ (s : Part0.St) (sid : Nat) (rid : Part0.RoomId) (room : Part0.Room) (tid : Nat),
      Part0.roomIdOf s sid = some rid → lookupAL s.rooms rid = some room →
      room.timer = some tid →
      (Part0.handleDisconnect s sid).timers
          = s.timers.filter (fun t => decide (t.tid ≠ tid)) ∧
      lookupAL (Part0.handleDisconnect s sid).rooms rid = none) ∧
    (∀ (s : SrvJs.St) (sid : Nat), (SrvJs.handleDisconnect s sid).timers = s.timers) ∧
    (∀ (s : Part0.St) (t : Part0.Timer), lookupAL s.rooms t.roomId = none →
      (Part0.fireTimer rng s t).events = s.events ∧
      (Part0.fireTimer rng s t).rooms = s.rooms) ∧
    (∀ (s : SrvJs.St) (t : SrvJs.Timer), lookupAL s.rooms t.roomId = none →
      (SrvJs.fireTimer rng s t).events = s.events ∧
      (SrvJs.fireTimer rng s t).rooms = s.rooms) := by
  refine ⟨?_, ?_, ?_, ?_⟩
  · intro s sid rid room tid h1 h2 ht
    simp only [Part0.handleDisconnect]
    by_cases hw : s.waitingPlayer = some sid
    · rw [if_pos hw]
      have h1' : Part0.roomIdOf ({ s with waitingPlayer := none } : Part0.St) sid
          = some rid := h1
      have h2' : lookupAL ({ s with waitingPlayer := none } : Part0.St).rooms rid
          = some room := h2
      simp only [h1', h2', ht, Part0.emit]
      exact ⟨trivial, by rw [lookupAL_delAL_self]⟩
    · rw [if_neg hw]
      simp only [h1, h2, ht, Part0.emit]
      exact ⟨trivial, by rw [lookupAL_delAL_self]⟩
  · intro s sid
    simp only [SrvJs.handleDisconnect]
    rcases h1 : SrvJs.roomIdOf { s with queue := removeFirst s.queue sid } sid with _ | rid2
    · simp only [h1]
    · rcases h2 : lookupAL s.rooms rid2 with _ | r0
      · simp only [h1, h2]
      · simp only [h1, h2, SrvJs.emit]
  · intro s t h
    by_cases hm : t ∈ s.timers
    · cases hk : t.kind with
      | lobby =>
        simp only [Part0.fireTimer, hm, if_pos, hk, Part0.startRound, h]
        exact ⟨trivial, trivial⟩
      | interval =>
        simp only [Part0.fireTimer, hm, if_pos, hk, Part0.revealRound, h]
        exact ⟨trivial, trivial⟩
      | reveal =>
        simp only [Part0.fireTimer, hm, if_pos, hk, Part0.startRound, h]
        exact ⟨trivial, trivial⟩
    · simp only [Part0.fireTimer, hm, if_neg, if_false]
      exact ⟨trivial, trivial⟩
  · intro s t h
    by_cases hm : t ∈ s.timers
    · cases hk : t.kind with
      | gameLoopStart =>
        simp only [SrvJs.fireTimer, hm, if_pos, hk, SrvJs.startGameLoop, h]
        exact ⟨trivial, trivial⟩
      | roundEnd =>
        simp only [SrvJs.fireTimer, hm, if_pos, hk, h]
        exact ⟨trivial, trivial⟩
      | revealEnd =>
        simp only [SrvJs.fireTimer, hm, if_pos, hk, h]
        exact ⟨trivial, trivial⟩
    · simp only [SrvJs.fireTimer, hm, if_neg, if_false]
      exact ⟨trivial, trivial⟩

/-- Concrete part_000 state in which the paired room has fired its lobby
timer, so its interval countdown (timer id 1) is stored and pending. -/
def c6state : Part0.St :=
  Part0.run rng0 Part0.init
    [Part0.Msg.identify 1 { uid := 10, name := "a", avatar := "b" },
     Part0.Msg.identify 2 { uid := 20, name := "c", avatar := "d" },
     Part0.Msg.fire { tid := 0, kind := .lobby, roomId := (1, 2) }]

/-- Witness for the amended C6 at concrete inputs. -/
theorem C6_timer_cancellation_witness :
    ((Part0.handleDisconnect c6state 2).timers
        = c6state.timers.filter (fun t => decide (t.tid ≠ 1)) ∧
      lookupAL (Part0.handleDisconnect c6state 2).rooms (1, 2) = none) ∧
    ((SrvJs.handleDisconnect sw2c 1).timers = sw2c.timers) ∧
    ((Part0.fireTimer rng0 pd3c { tid := 0, kind := .lobby, roomId := (1, 2) }).events
        = pd3c.events ∧
      (Part0.fireTimer rng0 pd3c { tid := 0, kind := .lobby, roomId := (1, 2) }).rooms
        = pd3c.rooms) ∧
    ((SrvJs.fireTimer rng0 sd3c
        { tid := 0, kind := .gameLoopStart, roomId := (1, 2) }).events = sd3c.events ∧
      (SrvJs.fireTimer rng0 sd3c
        { tid := 0, kind := .gameLoopStart, roomId := (1, 2) }).rooms = sd3c.rooms) :=
  ⟨(C6_timer_cancellation rng0).1 c6state 2 (1, 2)
      { Part0.pairedRoom rng0 1 2 0 with round := 1, timer := some 1 } 1 rfl rfl rfl,
   (C6_timer_cancellation rng0).2.1 sw2c 1,
   (C6_timer_cancellation rng0).2.2.1 pd3c
      { tid := 0, kind := .lobby, roomId := (1, 2) } rfl,
   (C6_timer_cancellation rng0).2.2.2 sd3c
      { tid := 0, kind := .gameLoopStart, roomId := (1, 2) } rfl⟩

/-- sid is one of the two participants of the room. -/
def Part0.participates (room : Part0.Room) (sid : Nat) : Prop :=
  room.p1 = sid ∨ room.p2 = sid

/-- Registration invariant over the room registry and the waiting slot:
registered rooms carry their key participants, the waiting handle is in no
registered room, and each handle participates in at most one registered
room. -/
def Part0.RegInvOn (rooms : List (Part0.RoomId × Part0.Room)) (waiting : Option Nat) : Prop :=
  (∀ rid room, lookupAL rooms rid = some room → room.p1 = rid.1 ∧ room.p2 = rid.2) ∧
  (∀ w, waiting = some w →
    ∀ rid room, lookupAL rooms rid = some room → ¬ Part0.participates room w) ∧
  (∀ sid rid1 rid2 room1 room2,
    lookupAL rooms rid1 = some room1 → lookupAL rooms rid2 = some room2 →
    Part0.participates room1 sid → Part0.participates room2 sid → rid1 = rid2)

def Part0.RegInv (s : Part0.St) : Prop := Part0.RegInvOn s.rooms s.waitingPlayer

/-- The guard of the amended C7: a handle only enrolls while it is neither
waiting nor a participant of a registered room. -/
def Part0.freshArrival (s : Part0.St) (sid : Nat) : Prop :=
  s.waitingPlayer ≠ some sid ∧
  ∀ rid room, lookupAL s.rooms rid = some room → ¬ Part0.participates room sid

theorem Part0.RegInvOn_weaken (rooms : List (Part0.RoomId × Part0.Room))
    (waiting : Option Nat) (h : Part0.RegInvOn rooms waiting) :
    Part0.RegInvOn rooms none := by
  refine ⟨h.1, ?_, h.2.2⟩
  intro w hw
  exact Option.noConfusion hw

theorem Part0.RegInvOn_del (rooms : List (Part0.RoomId × Part0.Room))
    (waiting : Option Nat) (k : Part0.RoomId) (h : Part0.RegInvOn rooms waiting) :
    Part0.RegInvOn (delAL rooms k) waiting := by
  have hsub : ∀ rid room, lookupAL (delAL rooms k) rid = some room →
      lookupAL rooms rid = some room := by
    intro rid room hr
    rw [lookupAL_delAL] at hr
    by_cases he : rid = k
    · rw [if_pos he] at hr; cases hr
    · rw [if_neg he] at hr; exact hr
  refine ⟨?_, ?_, ?_⟩
  · intro rid room hr; exact h.1 rid room (hsub rid room hr)
  · intro w hw rid room hr; exact h.2.1 w hw rid room (hsub rid room hr)
  · intro sid rid1 rid2 room1 room2 h1 h2 hp1 hp2
    exact h.2.2 sid rid1 rid2 room1 room2 (hsub _ _ h1) (hsub _ _ h2) hp1 hp2

theorem Part0.RegInvOn_set_same (rooms : List (Part0.RoomId × Part0.Room))
    (waiting : Option Nat) (k : Part0.RoomId) (room room' : Part0.Room)
    (hk : lookupAL rooms k = some room)
    (hp1 : room'.p1 = room.p1) (hp2 : room'.p2 = room.p2)
    (h : Part0.RegInvOn rooms waiting) :
    Part0.RegInvOn (setAL rooms k room') waiting := by
  have hcases : ∀ rid r, lookupAL (setAL rooms k room') rid = some r →
      (rid = k ∧ r = room') ∨ lookupAL rooms rid = some r := by
    intro rid r hr
    rw [lookupAL_setAL] at hr
    by_cases he : rid = k
    · rw [if_pos he] at hr; cases hr; exact Or.inl ⟨he, rfl⟩
    · rw [if_neg he] at hr; exact Or.inr hr
  have hpart : ∀ x, Part0.participates room' x → Part0.participates room x := by
    intro x hx
    rcases hx with hx | hx
    · exact Or.inl (hp1 ▸ hx)
    · exact Or.inr (hp2 ▸ hx)
  refine ⟨?_, ?_, ?_⟩
  · intro rid r hr
    rcases hcases rid r hr with ⟨he, rfl⟩ | hr2
    · have h0 := h.1 k room hk
      rw [he]
      exact ⟨hp1.trans h0.1, hp2.trans h0.2⟩
    · exact h.1 rid r hr2
  · intro w hw rid r hr hp
    rcases hcases rid r hr with ⟨he, rfl⟩ | hr2
    · exact h.2.1 w hw k room hk (hpart w hp)
    · exact h.2.1 w hw rid r hr2 hp
  · intro sid rid1 rid2 room1 room2 h1 h2 hq1 hq2
    rcases hcases rid1 room1 h1 with ⟨he1, rfl⟩ | h1'
    · rcases hcases rid2 room2 h2 with ⟨he2, rfl⟩ | h2'
      · rw [he1, he2]
      · rw [he1]
        exact h.2.2 sid k rid2 room room2 hk h2' (hpart sid hq1) hq2
    · rcases hcases rid2 room2 h2 with ⟨he2, rfl⟩ | h2'
      · rw [he2]
        exact h.2.2 sid rid1 k room1 room h1' hk hq1 (hpart sid hq2)
      · exact h.2.2 sid rid1 rid2 room1 room2 h1' h2' hq1 hq2

theorem Part0.pairedRoom_participates (rng : Nat → Nat) (w sid start x : Nat)
    (h : Part0.participates (Part0.pairedRoom rng w sid start) x) : w = x ∨ sid = x := by
  rcases h with h | h
  · exact Or.inl h
  · exact Or.inr h

theorem Part0.RegInvOn_pair (rooms : List (Part0.RoomId × Part0.Room))
    (rng : Nat → Nat) (w sid start : Nat)
    (h : Part0.RegInvOn rooms (some w))
    (hsid : ∀ rid room, lookupAL rooms rid = some room → ¬ Part0.participates room sid) :
    Part0.RegInvOn (setAL rooms (w, sid) (Part0.pairedRoom rng w sid start)) none := by
  have hw : ∀ rid room, lookupAL rooms rid = some room → ¬ Part0.participates room w :=
    h.2.1 w rfl
  have hcases : ∀ rid r,
      lookupAL (setAL rooms (w, sid) (Part0.pairedRoom rng w sid start)) rid = some r →
      (rid = (w, sid) ∧ r = Part0.pairedRoom rng w sid start) ∨ lookupAL rooms rid = some r := by
    intro rid r hr
    rw [lookupAL_setAL] at hr
    by_cases he : rid = (w, sid)
    · rw [if_pos he] at hr; cases hr; exact Or.inl ⟨he, rfl⟩
    · rw [if_neg he] at hr; exact Or.inr hr
  refine ⟨?_, ?_, ?_⟩
  · intro rid r hr
    rcases hcases rid r hr with ⟨rfl, rfl⟩ | hr2
    · exact ⟨rfl, rfl⟩
    · exact h.1 rid r hr2
  · intro v hv; cases hv
  · intro sid0 rid1 rid2 room1 room2 h1 h2 hp1 hp2
    rcases hcases rid1 room1 h1 with ⟨rfl, rfl⟩ | h1'
    · rcases hcases rid2 room2 h2 with ⟨rfl, rfl⟩ | h2'
      · rfl
      · rcases Part0.pairedRoom_participates rng w sid start sid0 hp1 with rfl | rfl
        · exact absurd hp2 (hw rid2 room2 h2')
        · exact absurd hp2 (hsid rid2 room2 h2')
    · rcases hcases rid2 room2 h2 with ⟨rfl, rfl⟩ | h2'
      · rcases Part0.pairedRoom_participates rng w sid start sid0 hp2 with rfl | rfl
        · exact absurd hp1 (hw rid1 room1 h1')
        · exact absurd hp1 (hsid rid1 room1 h1')
      · exact h.2.2 sid0 rid1 rid2 room1 room2 h1' h2' hp1 hp2

theorem Part0.RegInvOn_queue (rooms : List (Part0.RoomId × Part0.Room))
    (waiting : Option Nat) (sid : Nat) (h : Part0.RegInvOn rooms waiting)
    (hsid : ∀ rid room, lookupAL rooms rid = some room → ¬ Part0.participates room sid) :
    Part0.RegInvOn rooms (some sid) := by
  refine ⟨h.1, ?_, h.2.2⟩
  intro w hw rid room hr
  cases hw
  exact hsid rid room hr

theorem Part0.identify_reginv (rng : Nat → Nat) (s : Part0.St) (sid : Nat) (u : Part0.User)
    (hI : Part0.RegInv s) (hg : Part0.freshArrival s sid) :
    Part0.RegInv (Part0.identify rng s sid u) := by
  rcases hw : (Part0.updSock s sid (fun sk => { sk with user := some u })).waitingPlayer
    with _ | w
  · have hI' : Part0.RegInvOn s.rooms (some sid) :=
      Part0.RegInvOn_queue s.rooms s.waitingPlayer sid hI hg.2
    show Part0.RegInvOn (Part0.identify rng s sid u).rooms
      (Part0.identify rng s sid u).waitingPlayer
    simp only [Part0.identify, Part0.findMatch, hw, Part0.emit]
    exact hI'
  · have hwS : s.waitingPlayer = some w := hw
    have hIw : Part0.RegInvOn s.rooms (some w) := by rw [← hwS]; exact hI
    have hres := Part0.RegInvOn_pair s.rooms rng w sid s.randIdx hIw hg.2
    show Part0.RegInvOn (Part0.identify rng s sid u).rooms
      (Part0.identify rng s sid u).waitingPlayer
    rw [Part0.identify, Part0.findMatch_pair_rooms rng _ sid w hw,
      Part0.findMatch_pair_waiting rng _ sid w hw]
    exact hres

theorem Part0.handleDisconnect_reginv (s : Part0.St) (sid : Nat)
    (hI : Part0.RegInv s) : Part0.RegInv (Part0.handleDisconnect s sid) := by
  simp only [Part0.handleDisconnect]
  generalize hs0 : (if s.waitingPlayer = some sid then
      { s with waitingPlayer := none } else s) = s0
  have hI0 : Part0.RegInv s0 := by
    rw [← hs0]
    by_cases hw : s.waitingPlayer = some sid
    · rw [if_pos hw]
      exact Part0.RegInvOn_weaken s.rooms s.waitingPlayer hI
    · rw [if_neg hw]; exact hI
  rcases h1 : Part0.roomIdOf s0 sid with _ | rid2
  · simp only [h1]; exact hI0
  · rcases h2 : lookupAL s0.rooms rid2 with _ | r0
    · simp only [h1, h2]; exact hI0
    · simp only [h1, h2]
      rcases ht : r0.timer with _ | tid <;> simp only [ht] <;>
        exact Part0.RegInvOn_del s0.rooms s0.waitingPlayer rid2 hI0

theorem Part0.submitScore_reginv (s : Part0.St) (sid : Nat) (pts : Int)
    (hI : Part0.RegInv s) : Part0.RegInv (Part0.submitScore s sid pts) := by
  rcases h1 : Part0.roomIdOf s sid with _ | rid2
  · simp only [Part0.submitScore, h1]; exact hI
  · rcases h2 : lookupAL s.rooms rid2 with _ | r0
    · simp only [Part0.submitScore, h1, h2]; exact hI
    · rw [Part0.submitScore_effect s sid pts rid2 r0 h1 h2]
      exact Part0.RegInvOn_set_same s.rooms s.waitingPlayer rid2 r0
        { r0 with scores := Part0.credit r0 sid pts } h2 rfl rfl hI

theorem Part0.endGame_reginv (s : Part0.St) (target : Part0.RoomId)
    (hI : Part0.RegInv s) : Part0.RegInv (Part0.endGame s target) := by
  rcases h2 : lookupAL s.rooms target with _ | r0
  · simp only [Part0.endGame, h2]; exact hI
  · simp only [Part0.endGame, h2, Part0.emit]
    exact Part0.RegInvOn_del s.rooms s.waitingPlayer target hI

theorem Part0.startRound_reginv (rng : Nat → Nat) (s : Part0.St) (target : Part0.RoomId)
    (hI : Part0.RegInv s) : Part0.RegInv (Part0.startRound rng s target) := by
  rcases h2 : lookupAL s.rooms target with _ | r0
  · simp only [Part0.startRound, h2]; exact hI
  · by_cases hmax : r0.maxRounds ≤ r0.round
    · simp only [Part0.startRound, h2, hmax, if_true]
      exact Part0.endGame_reginv s target hI
    · simp only [Part0.startRound, h2, hmax, if_false, Part0.emit]
      exact Part0.RegInvOn_set_same s.rooms s.waitingPlayer target r0
        { r0 with round := r0.round + 1, timer := some s.nextTimer } h2 rfl rfl hI

theorem Part0.revealRound_reginv (s : Part0.St) (target : Part0.RoomId)
    (hI : Part0.RegInv s) : Part0.RegInv (Part0.revealRound s target) := by
  rcases h2 : lookupAL s.rooms target with _ | r0
  · simp only [Part0.revealRound, h2]; exact hI
  · simp only [Part0.revealRound, h2, Part0.emit, Part0.addTimer]
    exact hI

theorem Part0.fireTimer_reginv (rng : Nat → Nat) (s : Part0.St) (t : Part0.Timer)
    (hI : Part0.RegInv s) : Part0.RegInv (Part0.fireTimer rng s t) := by
  by_cases hm : t ∈ s.timers
  · have hI1 : Part0.RegInv
        { s with timers := s.timers.filter (fun t' => decide (t' ≠ t)) } := hI
    cases hk : t.kind with
    | lobby =>
      simp only [Part0.fireTimer, hm, hk, if_pos]
      exact Part0.startRound_reginv rng _ t.roomId hI1
    | interval =>
      simp only [Part0.fireTimer, hm, hk, if_pos]
      exact Part0.revealRound_reginv _ t.roomId hI1
    | reveal =>
      simp only [Part0.fireTimer, hm, hk, if_pos]
      exact Part0.startRound_reginv rng _ t.roomId hI1
  · simp only [Part0.fireTimer, hm, if_neg, if_false]
    exact hI

/-- Event traces in which identify is only ever received from a handle that
is neither waiting nor a participant of a registered room; disconnects,
submissions and timer expirations are unrestricted. -/
inductive Part0.GoodTrace (rng : Nat → Nat) : Part0.St → Part0.St → Prop
  | nil (s : Part0.St) : Part0.GoodTrace rng s s
  | identify (s s' : Part0.St) (sid : Nat) (u : Part0.User)
      (hg : Part0.freshArrival s sid)
      (h : Part0.GoodTrace rng (Part0.identify rng s sid u) s') : Part0.GoodTrace rng s s'
  | disconnect (s s' : Part0.St) (sid : Nat)
      (h : Part0.GoodTrace rng (Part0.handleDisconnect s sid) s') : Part0.GoodTrace rng s s'
  | submit (s s' : Part0.St) (sid : Nat) (pts : Int)
      (h : Part0.GoodTrace rng (Part0.submitScore s sid pts) s') : Part0.GoodTrace rng s s'
  | fire (s s' : Part0.St) (t : Part0.Timer)
      (h : Part0.GoodTrace rng (Part0.fireTimer rng s t) s') : Part0.GoodTrace rng s s'

theorem Part0.GoodTrace_reginv (rng : Nat → Nat) (s s' : Part0.St)
    (ht : Part0.GoodTrace rng s s') (hI : Part0.RegInv s) : Part0.RegInv s' := by
  induction ht with
  | nil s => exact hI
  | identify s s' sid u hg h ih => exact ih (Part0.identify_reginv rng s sid u hI hg)
  | disconnect s s' sid h ih => exact ih (Part0.handleDisconnect_reginv s sid hI)
  | submit s s' sid pts h ih => exact ih (Part0.submitScore_reginv s sid pts hI)
  | fire s s' t h ih => exact ih (Part0.fireTimer_reginv rng s t hI)

theorem removeFirst_sublist {α : Type} [DecidableEq α] (l : List α) (a : α) :
    List.Sublist (removeFirst l a) l := by
  induction l with
  | nil => simp [removeFirst]
  | cons x xs ih =>
    by_cases h : x = a
    · simp only [removeFirst, h, if_true]
      exact List.sublist_cons_self a xs
    · simp only [removeFirst, h, if_false]
      exact List.Sublist.cons₂ x ih

theorem removeFirst_mem {α : Type} [DecidableEq α] (l : List α) (a v : α)
    (h : v ∈ removeFirst l a) : v ∈ l :=
  (removeFirst_sublist l a).subset h

theorem removeFirst_nodup {α : Type} [DecidableEq α] (l : List α) (a : α)
    (h : l.Nodup) : (removeFirst l a).Nodup :=
  List.Nodup.sublist (removeFirst_sublist l a) h

theorem dropLast_append_of_getLast? {α : Type} :
    ∀ (l : List α) (w : α), l.getLast? = some w → l.dropLast ++ [w] = l
  | [], _, h => by cases h
  | [a], w, h => by
    have : a = w := by simpa [List.getLast?] using h
    simp [this]
  | a :: b :: t, w, h => by
    have ih := dropLast_append_of_getLast? (b :: t) w (by
      simpa [List.getLast?_cons_cons] using h)
    simp only [List.dropLast_cons₂, List.cons_append, ih]

theorem mem_of_getLast?_eq {α : Type} (l : List α) (w : α)
    (h : l.getLast? = some w) : w ∈ l := by
  rw [← dropLast_append_of_getLast? l w h]
  exact List.mem_append_right _ (List.mem_singleton.mpr rfl)

theorem not_mem_dropLast_of_getLast? {α : Type} (l : List α) (w : α)
    (hq : l.getLast? = some w) (hn : l.Nodup) : w ∉ l.dropLast := by
  have hsplit := dropLast_append_of_getLast? l w hq
  rw [← hsplit] at hn
  intro hw
  exact (List.nodup_append.mp hn).2.2 hw (List.mem_singleton.mpr rfl)

theorem mem_dropLast {α : Type} (l : List α) (v : α) (h : v ∈ l.dropLast) : v ∈ l :=
  (List.dropLast_sublist l).subset h

/-- sid is one of the two participants of the room (server.js variant). -/
def SrvJs.participatesS (room : SrvJs.Room) (sid : Nat) : Prop :=
  room.p1 = sid ∨ room.p2 = sid

/-- Registration invariant over the room registry and the queue: registered
rooms carry their key participants, queued handles are in no registered
room and the queue has no duplicates, and each handle participates in at
most one registered room. -/
def SrvJs.RegInvOnS (rooms : List (SrvJs.RoomId × SrvJs.Room)) (queue : List Nat) : Prop :=
  (∀ rid room, lookupAL rooms rid = some room → room.p1 = rid.1 ∧ room.p2 = rid.2) ∧
  (∀ w, w ∈ queue → ∀ rid room, lookupAL rooms rid = some room →
    ¬ SrvJs.participatesS room w) ∧
  (∀ sid rid1 rid2 room1 room2,
    lookupAL rooms rid1 = some room1 → lookupAL rooms rid2 = some room2 →
    SrvJs.participatesS room1 sid → SrvJs.participatesS room2 sid → rid1 = rid2) ∧
  queue.Nodup

def SrvJs.RegInvS (s : SrvJs.St) : Prop := SrvJs.RegInvOnS s.rooms s.queue

/-- The guard of the amended C7 for server.js: a handle only enrolls while
it is neither queued nor a participant of a registered room. -/
def SrvJs.freshArrivalS (s : SrvJs.St) (sid : Nat) : Prop :=
  sid ∉ s.queue ∧
  ∀ rid room, lookupAL s.rooms rid = some room → ¬ SrvJs.participatesS room sid

theorem SrvJs.RegInvOnS_queue_sub (rooms : List (SrvJs.RoomId × SrvJs.Room))
    (q1 q2 : List Nat) (h : SrvJs.RegInvOnS rooms q1)
    (hsub : ∀ v ∈ q2, v ∈ q1) (hnd : q2.Nodup) : SrvJs.RegInvOnS rooms q2 :=
  ⟨h.1, fun w hw => h.2.1 w (hsub w hw), h.2.2.1, hnd⟩

theorem SrvJs.RegInvOnS_push (rooms : List (SrvJs.RoomId × SrvJs.Room))
    (queue : List Nat) (sid : Nat) (h : SrvJs.RegInvOnS rooms queue)
    (hsid : ∀ rid room, lookupAL rooms rid = some room → ¬ SrvJs.participatesS room sid)
    (hnm : sid ∉ queue) : SrvJs.RegInvOnS rooms (queue ++ [sid]) := by
  refine ⟨h.1, ?_, h.2.2.1, ?_⟩
  · intro w hw rid room hr
    rcases List.mem_append.mp hw with hw | hw
    · exact h.2.1 w hw rid room hr
    · rcases List.mem_singleton.mp hw with rfl
      exact hsid rid room hr
  · rw [List.nodup_append]
    exact ⟨h.2.2.2, List.nodup_singleton sid, fun v hv hv2 => by
      rcases List.mem_singleton.mp hv2 with rfl
      exact hnm hv⟩

theorem SrvJs.RegInvOnS_del (rooms : List (SrvJs.RoomId × SrvJs.Room))
    (queue : List Nat) (k : SrvJs.RoomId) (h : SrvJs.RegInvOnS rooms queue) :
    SrvJs.RegInvOnS (delAL rooms k) queue := by
  have hsub : ∀ rid room, lookupAL (delAL rooms k) rid = some room →
      lookupAL rooms rid = some room := by
    intro rid room hr
    rw [lookupAL_delAL] at hr
    by_cases he : rid = k
    · rw [if_pos he] at hr; cases hr
    · rw [if_neg he] at hr; exact hr
  refine ⟨?_, ?_, ?_, h.2.2.2⟩
  · intro rid room hr; exact h.1 rid room (hsub rid room hr)
  · intro w hw rid room hr; exact h.2.1 w hw rid room (hsub rid room hr)
  · intro sid rid1 rid2 room1 room2 h1 h2 hp1 hp2
    exact h.2.2.1 sid rid1 rid2 room1 room2 (hsub _ _ h1) (hsub _ _ h2) hp1 hp2

theorem SrvJs.RegInvOnS_set_same (rooms : List (SrvJs.RoomId × SrvJs.Room))
    (queue : List Nat) (k : SrvJs.RoomId) (room room' : SrvJs.Room)
    (hk : lookupAL rooms k = some room)
    (hp1 : room'.p1 = room.p1) (hp2 : room'.p2 = room.p2)
    (h : SrvJs.RegInvOnS rooms queue) :
    SrvJs.RegInvOnS (setAL rooms k room') queue := by
  have hcases : ∀ rid r, lookupAL (setAL rooms k room') rid = some r →
      (rid = k ∧ r = room') ∨ lookupAL rooms rid = some r := by
    intro rid r hr
    rw [lookupAL_setAL] at hr
    by_cases he : rid = k
    · rw [if_pos he] at hr; cases hr; exact Or.inl ⟨he, rfl⟩
    · rw [if_neg he] at hr; exact Or.inr hr
  have hpart : ∀ x, SrvJs.participatesS room' x → SrvJs.participatesS room x := by
    intro x hx
    rcases hx with hx | hx
    · exact Or.inl (hp1 ▸ hx)
    · exact Or.inr (hp2 ▸ hx)
  refine ⟨?_, ?_, ?_, h.2.2.2⟩
  · intro rid r hr
    rcases hcases rid r hr with ⟨he, rfl⟩ | hr2
    · have h0 := h.1 k room hk
      rw [he]
      exact ⟨hp1.trans h0.1, hp2.trans h0.2⟩
    · exact h.1 rid r hr2
  · intro w hw rid r hr hp
    rcases hcases rid r hr with ⟨he, rfl⟩ | hr2
    · exact h.2.1 w hw k room hk (hpart w hp)
    · exact h.2.1 w hw rid r hr2 hp
  · intro sid rid1 rid2 room1 room2 h1 h2 hq1 hq2
    rcases hcases rid1 room1 h1 with ⟨he1, rfl⟩ | h1'
    · rcases hcases rid2 room2 h2 with ⟨he2, rfl⟩ | h2'
      · rw [he1, he2]
      · rw [he1]
        exact h.2.2.1 sid k rid2 room room2 hk h2' (hpart sid hq1) hq2
    · rcases hcases rid2 room2 h2 with ⟨he2, rfl⟩ | h2'
      · rw [he2]
        exact h.2.2.1 sid rid1 k room1 room h1' hk hq1 (hpart sid hq2)
      · exact h.2.2.1 sid rid1 rid2 room1 room2 h1' h2' hq1 hq2

theorem SrvJs.pairedRoomS_participates (rng : Nat → Nat) (w sid start x : Nat)
    (h : SrvJs.participatesS (SrvJs.pairedRoom rng w sid start) x) : w = x ∨ sid = x := by
  rcases h with h | h
  · exact Or.inl h
  · exact Or.inr h

theorem SrvJs.RegInvOnS_pair (rng : Nat → Nat) (rooms : List (SrvJs.RoomId × SrvJs.Room))
    (queue : List Nat) (w sid start : Nat)
    (h : SrvJs.RegInvOnS rooms queue)
    (hlast : queue.getLast? = some w)
    (hsid : ∀ rid room, lookupAL rooms rid = some room → ¬ SrvJs.participatesS room sid)
    (hsidq : sid ∉ queue) :
    SrvJs.RegInvOnS (setAL rooms (w, sid) (SrvJs.pairedRoom rng w sid start))
      queue.dropLast := by
  have hwmem : w ∈ queue := mem_of_getLast?_eq queue w hlast
  have hwroom : ∀ rid room, lookupAL rooms rid = some room →
      ¬ SrvJs.participatesS room w := h.2.1 w hwmem
  have hwdl : w ∉ queue.dropLast := not_mem_dropLast_of_getLast? queue w hlast h.2.2.2
  have hcases : ∀ rid r,
      lookupAL (setAL rooms (w, sid) (SrvJs.pairedRoom rng w sid start)) rid = some r →
      (rid = (w, sid) ∧ r = SrvJs.pairedRoom rng w sid start) ∨
        lookupAL rooms rid = some r := by
    intro rid r hr
    rw [lookupAL_setAL] at hr
    by_cases he : rid = (w, sid)
    · rw [if_pos he] at hr; cases hr; exact Or.inl ⟨he, rfl⟩
    · rw [if_neg he] at hr; exact Or.inr hr
  refine ⟨?_, ?_, ?_, List.Nodup.sublist (List.dropLast_sublist queue) h.2.2.2⟩
  · intro rid r hr
    rcases hcases rid r hr with ⟨he, rfl⟩ | hr2
    · rw [he]
      exact ⟨rfl, rfl⟩
    · exact h.1 rid r hr2
  · intro v hv rid r hr hp
    have hvq : v ∈ queue := mem_dropLast queue v hv
    rcases hcases rid r hr with ⟨he, rfl⟩ | hr2
    · rcases SrvJs.pairedRoomS_participates rng w sid start v hp with rfl | rfl
      · exact hwdl hv
      · exact hsidq hvq
    · exact h.2.1 v hvq rid r hr2 hp
  · intro sid0 rid1 rid2 room1 room2 h1 h2 hp1 hp2
    rcases hcases rid1 room1 h1 with ⟨he1, rfl⟩ | h1'
    · rcases hcases rid2 room2 h2 with ⟨he2, rfl⟩ | h2'
      · rw [he1, he2]
      · rcases SrvJs.pairedRoomS_participates rng w sid start sid0 hp1 with rfl | rfl
        · exact absurd hp2 (hwroom rid2 room2 h2')
        · exact absurd hp2 (hsid rid2 room2 h2')
    · rcases hcases rid2 room2 h2 with ⟨he2, rfl⟩ | h2'
      · rcases SrvJs.pairedRoomS_participates rng w sid start sid0 hp2 with rfl | rfl
        · exact absurd hp1 (hwroom rid1 room1 h1')
        · exact absurd hp1 (hsid rid1 room1 h1')
      · exact h.2.2.1 sid0 rid1 rid2 room1 room2 h1' h2' hp1 hp2

theorem SrvJs.identify_reginv_srv (rng : Nat → Nat) (s : SrvJs.St) (sid uid : Nat)
    (nm av : String) (hI : SrvJs.RegInvS s) (hg : SrvJs.freshArrivalS s sid) :
    SrvJs.RegInvS (SrvJs.identify rng s sid uid nm av) := by
  rcases hq : s.queue.getLast? with _ | w
  · show SrvJs.RegInvOnS (SrvJs.identify rng s sid uid nm av).rooms
      (SrvJs.identify rng s sid uid nm av).queue
    simp only [SrvJs.identify, SrvJs.matchmake, SrvJs.updSock, hq, SrvJs.emit]
    exact SrvJs.RegInvOnS_push s.rooms s.queue sid hI hg.2 hg.1
  · have hq' : (SrvJs.updSock s sid (fun sk =>
        { sk with user := some { uid := uid, name := nm, avatar := av, score := 0 } })).queue.getLast?
          = some w := hq
    have hrooms := SrvJs.matchmake_some_rooms rng
      (SrvJs.updSock s sid (fun sk =>
        { sk with user := some { uid := uid, name := nm, avatar := av, score := 0 } }))
      sid w hq'
    have hqueue : (SrvJs.matchmake rng
        (SrvJs.updSock s sid (fun sk =>
          { sk with user := some { uid := uid, name := nm, avatar := av, score := 0 } }))
        sid).queue = s.queue.dropLast := by
      rw [SrvJs.matchmake_queue]
      simp only [SrvJs.updSock]
      rw [hq]
    show SrvJs.RegInvOnS (SrvJs.identify rng s sid uid nm av).rooms
      (SrvJs.identify rng s sid uid nm av).queue
    rw [SrvJs.identify, hrooms, hqueue]
    exact SrvJs.RegInvOnS_pair rng s.rooms s.queue w sid s.randIdx hI hq hg.2 hg.1

theorem SrvJs.handleDisconnect_reginv_srv (s : SrvJs.St) (sid : Nat)
    (hI : SrvJs.RegInvS s) : SrvJs.RegInvS (SrvJs.handleDisconnect s sid) := by
  have hq_inv : SrvJs.RegInvOnS s.rooms (removeFirst s.queue sid) :=
    SrvJs.RegInvOnS_queue_sub s.rooms s.queue _ hI
      (fun v hv => removeFirst_mem _ _ _ hv) (removeFirst_nodup _ _ hI.2.2.2)
  simp only [SrvJs.handleDisconnect]
  rcases h1 : SrvJs.roomIdOf { s with queue := removeFirst s.queue sid } sid with _ | rid2
  · simp only [h1]; exact hq_inv
  · rcases h2 : lookupAL s.rooms rid2 with _ | r0
    · simp only [h1, h2]; exact hq_inv
    · simp only [h1, h2, SrvJs.emit]
      exact SrvJs.RegInvOnS_del s.rooms (removeFirst s.queue sid) rid2 hq_inv

theorem SrvJs.submitScore_reginv_srv (s : SrvJs.St) (sid : Nat) (pts : Int)
    (hI : SrvJs.RegInvS s) : SrvJs.RegInvS (SrvJs.submitScore s sid pts) := by
  show SrvJs.RegInvOnS (SrvJs.submitScore s sid pts).rooms (SrvJs.submitScore s sid pts).queue
  rw [SrvJs.submitScore_rooms, SrvJs.submitScore_queue]
  exact hI

theorem SrvJs.nextRound_reginv_srv (rng : Nat → Nat) (s : SrvJs.St) (target : SrvJs.RoomId)
    (hI : SrvJs.RegInvS s) : SrvJs.RegInvS (SrvJs.nextRound rng s target) := by
  rcases h2 : lookupAL s.rooms target with _ | r0
  · simp only [SrvJs.nextRound, h2]; exact hI
  · by_cases hmax : r0.maxRounds ≤ r0.round
    · simp only [SrvJs.nextRound, h2, hmax, if_true, SrvJs.emit]
      exact SrvJs.RegInvOnS_del s.rooms s.queue target hI
    · simp only [SrvJs.nextRound, h2, hmax, if_false, SrvJs.emit, SrvJs.addTimer]
      exact SrvJs.RegInvOnS_set_same s.rooms s.queue target r0
        { r0 with round := r0.round + 1 } h2 rfl rfl hI

theorem SrvJs.startGameLoop_reginv_srv (rng : Nat → Nat) (s : SrvJs.St)
    (target : SrvJs.RoomId) (hI : SrvJs.RegInvS s) :
    SrvJs.RegInvS (SrvJs.startGameLoop rng s target) := by
  rcases h2 : lookupAL s.rooms target with _ | r0
  · simp only [SrvJs.startGameLoop, h2]; exact hI
  · simp only [SrvJs.startGameLoop, h2]
    exact SrvJs.nextRound_reginv_srv rng s target hI

theorem SrvJs.fireTimer_reginv_srv (rng : Nat → Nat) (s : SrvJs.St) (t : SrvJs.Timer)
    (hI : SrvJs.RegInvS s) : SrvJs.RegInvS (SrvJs.fireTimer rng s t) := by
  by_cases hm : t ∈ s.timers
  · have hI1 : SrvJs.RegInvS
        { s with timers := s.timers.filter (fun t' => decide (t' ≠ t)) } := hI
    cases hk : t.kind with
    | gameLoopStart =>
      simp only [SrvJs.fireTimer, hm, hk, if_pos]
      exact SrvJs.startGameLoop_reginv_srv rng _ t.roomId hI1
    | roundEnd =>
      rcases h2 : lookupAL s.rooms t.roomId with _ | r0 <;>
        simp only [SrvJs.fireTimer, hm, hk, if_pos, h2, SrvJs.emit, SrvJs.addTimer] <;>
        exact hI1
    | revealEnd =>
      rcases h2 : lookupAL s.rooms t.roomId with _ | r0
      · simp only [SrvJs.fireTimer, hm, hk, if_pos, h2]
        exact hI1
      · simp only [SrvJs.fireTimer, hm, hk, if_pos, h2]
        exact SrvJs.nextRound_reginv_srv rng _ t.roomId hI1
  · simp only [SrvJs.fireTimer, hm, if_neg, if_false]
    exact hI

/-- Event traces for server.js in which identify is only ever received from
a handle that is neither queued nor a participant of a registered room;
disconnects, submissions and timer expirations are unrestricted. -/
inductive SrvJs.GoodTraceS (rng : Nat → Nat) : SrvJs.St → SrvJs.St → Prop
  | nil (s : SrvJs.St) : SrvJs.GoodTraceS rng s s
  | identify (s s' : SrvJs.St) (sid uid : Nat) (nm av : String)
      (hg : SrvJs.freshArrivalS s sid)
      (h : SrvJs.GoodTraceS rng (SrvJs.identify rng s sid uid nm av) s') :
      SrvJs.GoodTraceS rng s s'
  | disconnect (s s' : SrvJs.St) (sid : Nat)
      (h : SrvJs.GoodTraceS rng (SrvJs.handleDisconnect s sid) s') :
      SrvJs.GoodTraceS rng s s'
  | submit (s s' : SrvJs.St) (sid : Nat) (pts : Int)
      (h : SrvJs.GoodTraceS rng (SrvJs.submitScore s sid pts) s') :
      SrvJs.GoodTraceS rng s s'
  | fire (s s' : SrvJs.St) (t : SrvJs.Timer)
      (h : SrvJs.GoodTraceS rng (SrvJs.fireTimer rng s t) s') :
      SrvJs.GoodTraceS rng s s'

theorem SrvJs.GoodTraceS_reginv (rng : Nat → Nat) (s s' : SrvJs.St)
    (ht : SrvJs.GoodTraceS rng s s') (hI : SrvJs.RegInvS s) : SrvJs.RegInvS s' := by
  induction ht with
  | nil s => exact hI
  | identify s s' sid uid nm av hg h ih =>
    exact ih (SrvJs.identify_reginv_srv rng s sid uid nm av hI hg)
  | disconnect s s' sid h ih => exact ih (SrvJs.handleDisconnect_reginv_srv s sid hI)
  | submit s s' sid pts h ih => exact ih (SrvJs.submitScore_reginv_srv s sid pts hI)
  | fire s s' t h ih => exact ih (SrvJs.fireTimer_reginv_srv rng s t hI)

/-- Concrete part_000 trace refuting C7: pair 1 with 2, let the already
matched socket 2 identify again (it becomes the waiting handle while still
a participant of registered room (1,2)), then socket 3 arrives and is
paired with 2 into room (2,3).  Both rooms are registered and socket 2 is
a participant of both. -/
def c7state : Part0.St :=
  Part0.run rng0 Part0.init
    [Part0.Msg.identify 1 { uid := 10, name := "a", avatar := "b" },
     Part0.Msg.identify 2 { uid := 20, name := "c", avatar := "d" },
     Part0.Msg.identify 2 { uid := 20, name := "c", avatar := "d" },
     Part0.Msg.identify 3 { uid := 30, name := "e", avatar := "f" }]

/-- C7 counterexample: after the trace above, rooms (1,2) and (2,3) are
both registered, with participant pairs (1,2) and (2,3) respectively, so
handle 2 is simultaneously a participant of two registered matches. -/
theorem C7_counterexample :
    (lookupAL c7state.rooms (1, 2)).map (fun r => (r.p1, r.p2)) = some (1, 2) ∧
    (lookupAL c7state.rooms (2, 3)).map (fun r => (r.p1, r.p2)) = some (2, 3) ∧
    ((1, 2) : Part0.RoomId) ≠ (2, 3) :=
  ⟨rfl, rfl, by decide⟩

/-- C7 amended: provided every identify event arrives from a handle that is
neither waiting/queued nor a participant of any registered match (the
normal client flow), every handle is a participant of at most one
registered match in every reachable state, in both variants; a repeated
identify from a handle that is still registered breaks this, as the
counterexample shows. -/
theorem C7_single_match_per_handle (rng : Nat → Nat) :
    (∀ s' : Part0.St, Part0.GoodTrace rng Part0.init s' →
      ∀ sid rid1 rid2 room1 room2,
        lookupAL s'.rooms rid1 = some room1 → lookupAL s'.rooms rid2 = some room2 →
        Part0.participates room1 sid → Part0.participates room2 sid → rid1 = rid2) ∧
    (∀ s' : SrvJs.St, SrvJs.GoodTraceS rng SrvJs.init s' →
      ∀ sid rid1 rid2 room1 room2,
        lookupAL s'.rooms rid1 = some room1 → lookupAL s'.rooms rid2 = some room2 →
        SrvJs.participatesS room1 sid → SrvJs.participatesS room2 sid → rid1 = rid2) := by
  constructor
  · intro s' ht
    have hinit : Part0.RegInv Part0.init := by
      refine ⟨?_, ?_, ?_⟩
      · intro rid room hr; exact Option.noConfusion hr
      · intro w hw; exact Option.noConfusion hw
      · intro sid rid1 rid2 room1 room2 h1 h2 _ _; exact Option.noConfusion h1
    exact (Part0.GoodTrace_reginv rng Part0.init s' ht hinit).2.2
  · intro s' ht
    have hinit : SrvJs.RegInvS SrvJs.init := by
      refine ⟨?_, ?_, ?_, List.nodup_nil⟩
      · intro rid room hr; exact Option.noConfusion hr
      · intro w hw; exact absurd hw (List.not_mem_nil w)
      · intro sid rid1 rid2 room1 room2 h1 h2 _ _; exact Option.noConfusion h1
    exact (SrvJs.GoodTraceS_reginv rng SrvJs.init s' ht hinit).2.2.1

/-- Witness for the amended C7: the two-arrival trace is a good trace in
each variant and its final state registers each handle in at most one
room. -/
theorem C7_single_match_per_handle_witness :
    Part0.GoodTrace rng0 Part0.init pw2c ∧
    (∀ sid rid1 rid2 room1 room2,
      lookupAL pw2c.rooms rid1 = some room1 → lookupAL pw2c.rooms rid2 = some room2 →
      Part0.participates room1 sid → Part0.participates room2 sid → rid1 = rid2) ∧
    SrvJs.GoodTraceS rng0 SrvJs.init sw2c ∧
    (∀ sid rid1 rid2 room1 room2,
      lookupAL sw2c.rooms rid1 = some room1 → lookupAL sw2c.rooms rid2 = some room2 →
      SrvJs.participatesS room1 sid → SrvJs.participatesS room2 sid → rid1 = rid2) := by
  have htr : Part0.GoodTrace rng0 Part0.init pw2c := by
    refine Part0.GoodTrace.identify _ _ 1 { uid := 10, name := "a", avatar := "b" }
      ⟨by decide, ?_⟩ ?_
    · intro rid room hr; exact Option.noConfusion hr
    · refine Part0.GoodTrace.identify _ _ 2 { uid := 20, name := "c", avatar := "d" }
        ⟨by decide, ?_⟩ ?_
      · intro rid room hr; exact Option.noConfusion hr
      · exact Part0.GoodTrace.nil pw2c
  have htr2 : SrvJs.GoodTraceS rng0 SrvJs.init sw2c := by
    refine SrvJs.GoodTraceS.identify _ _ 1 10 "a" "b" ⟨by decide, ?_⟩ ?_
    · intro rid room hr; exact Option.noConfusion hr
    · refine SrvJs.GoodTraceS.identify _ _ 2 20 "c" "d" ⟨by decide, ?_⟩ ?_
      · intro rid room hr; exact Option.noConfusion hr
      · exact SrvJs.GoodTraceS.nil sw2c
  exact ⟨htr, (C7_single_match_per_handle rng0).1 pw2c htr,
    htr2, (C7_single_match_per_handle rng0).2 sw2c htr2⟩

/-- C2: the matchmaking queue never holds more than one waiting handle.  In
server.js the queue array has length at most 1 in every reachable state; an
arrival that finds a waiting handle empties the queue and registers the pair
at once, and an arrival into an empty queue becomes the sole waiting entry.
The part_000 variant stores the waiting handle in a single Option slot, with
the same arrival behavior. -/
theorem C2_queue_at_most_one (rng : Nat → Nat) :
    (∀ ms : List SrvJs.Msg, (SrvJs.run rng SrvJs.init ms).queue.length ≤ 1) ∧
    (∀ (s : SrvJs.St) (w sid uid : Nat) (name avatar : String), s.queue = [w] →
      (SrvJs.identify rng s sid uid name avatar).queue = [] ∧
      ∃ room, lookupAL (SrvJs.identify rng s sid uid name avatar).rooms (w, sid) = some room) ∧
    (∀ (s : SrvJs.St) (sid uid : Nat) (name avatar : String), s.queue = [] →
      (SrvJs.identify rng s sid uid name avatar).queue = [sid]) ∧
    (∀ (t : Part0.St) (w sid : Nat) (u : Part0.User), t.waitingPlayer = some w →
      (Part0.identify rng t sid u).waitingPlayer = none ∧
      ∃ room, lookupAL (Part0.identify rng t sid u).rooms (w, sid) = some room) ∧
    (∀ (t : Part0.St) (sid : Nat) (u : Part0.User), t.waitingPlayer = none →
      (Part0.identify rng t sid u).waitingPlayer = some sid) := by
  refine ⟨SrvJs.run_queue_len rng, ?_, ?_, ?_, ?_⟩
  · intro s w sid uid name avatar hq
    have hq' : (SrvJs.updSock s sid (fun sk =>
        { sk with user := some { uid := uid, name := name, avatar := avatar, score := 0 } })).queue
          = [w] := by simp [SrvJs.updSock, hq]
    refine ⟨SrvJs.matchmake_pair_queue rng _ sid w hq', ?_⟩
    refine ⟨SrvJs.pairedRoom rng w sid s.randIdx, ?_⟩
    rw [SrvJs.identify, SrvJs.matchmake_pair_rooms rng _ sid w hq']
    simp [SrvJs.updSock, lookupAL_setAL_self]
  · intro s sid uid name avatar hq
    show (SrvJs.matchmake rng _ sid).queue = [sid]
    rw [SrvJs.matchmake_queue]
    simp only [SrvJs.updSock]
    rw [hq]
    simp
  · intro t w sid u hw
    have hw' : (Part0.updSock t sid (fun sk => { sk with user := some u })).waitingPlayer
        = some w := by simp [Part0.updSock, hw]
    refine ⟨Part0.findMatch_pair_waiting rng _ sid w hw', ?_⟩
    refine ⟨Part0.pairedRoom rng w sid t.randIdx, ?_⟩
    rw [Part0.identify, Part0.findMatch_pair_rooms rng _ sid w hw']
    simp [Part0.updSock, lookupAL_setAL_self]
  · intro t sid u hw
    have hw' : (Part0.updSock t sid (fun sk => { sk with user := some u })).waitingPlayer
        = none := by simp [Part0.updSock, hw]
    exact Part0.findMatch_empty_waiting rng _ sid hw'

/-- Witness for C2 at concrete inputs. -/
theorem C2_queue_at_most_one_witness :
    ((SrvJs.run rng0 SrvJs.init [SrvJs.Msg.identify 1 10 "a" "b"]).queue.length ≤ 1) ∧
    ((SrvJs.run rng0 SrvJs.init [SrvJs.Msg.identify 1 10 "a" "b"]).queue = [1] →
      (SrvJs.identify rng0 (SrvJs.run rng0 SrvJs.init [SrvJs.Msg.identify 1 10 "a" "b"])
        2 20 "c" "d").queue = [] ∧
      ∃ room, lookupAL (SrvJs.identify rng0
        (SrvJs.run rng0 SrvJs.init [SrvJs.Msg.identify 1 10 "a" "b"]) 2 20 "c" "d").rooms
        (1, 2) = some room) ∧
    (SrvJs.init.queue = [] → (SrvJs.identify rng0 SrvJs.init 5 50 "e" "f").queue = [5]) ∧
    (Part0.init.waitingPlayer = none →
      (Part0.identify rng0 Part0.init 5 { uid := 50, name := "e", avatar := "f" }).waitingPlayer
        = some 5) :=
  ⟨(C2_queue_at_most_one rng0).1 [SrvJs.Msg.identify 1 10 "a" "b"],
   fun hq => (C2_queue_at_most_one rng0).2.1 _ 1 2 20 "c" "d" hq,
   fun hq => (C2_queue_at_most_one rng0).2.2.1 _ 5 50 "e" "f" hq,
   fun hw => (C2_queue_at_most_one rng0).2.2.2.2 _ 5 _ hw⟩

/-- Witness for C3 at concrete states: one waiting handle in each variant. -/
theorem C3_pairing_initial_state_witness :
    ((SrvJs.run rng0 SrvJs.init [SrvJs.Msg.identify 1 10 "a" "b"]).queue = [1]) ∧
    ((Part0.run rng0 Part0.init
        [Part0.Msg.identify 1 { uid := 10, name := "a", avatar := "b" }]).waitingPlayer
      = some 1) ∧
    ((∃ room : SrvJs.Room,
      lookupAL (SrvJs.identify rng0
        (SrvJs.run rng0 SrvJs.init [SrvJs.Msg.identify 1 10 "a" "b"]) 2 20 "c" "d").rooms
        (1, 2) = some room ∧
      room.round = 0 ∧ room.phase = SrvJs.Phase.lobby ∧ room.maxRounds = 15 ∧
      room.deck.length = 15 ∧ (∀ x ∈ room.deck, x < DB_LENGTH) ∧
      (∀ rid, rid ≠ (1, 2) →
        lookupAL (SrvJs.identify rng0
          (SrvJs.run rng0 SrvJs.init [SrvJs.Msg.identify 1 10 "a" "b"]) 2 20 "c" "d").rooms rid =
          lookupAL (SrvJs.run rng0 SrvJs.init [SrvJs.Msg.identify 1 10 "a" "b"]).rooms rid) ∧
      (SrvJs.identify rng0
        (SrvJs.run rng0 SrvJs.init [SrvJs.Msg.identify 1 10 "a" "b"]) 2 20 "c" "d").queue = []) ∧
    (∃ room : Part0.Room,
      lookupAL (Part0.identify rng0
        (Part0.run rng0 Part0.init
          [Part0.Msg.identify 1 { uid := 10, name := "a", avatar := "b" }]) 2
        { uid := 20, name := "c", avatar := "d" }).rooms (1, 2) = some room ∧
      room.round = 0 ∧ room.maxRounds = 15 ∧
      room.deck.length = 15 ∧ (∀ x ∈ room.deck, x < DB_LENGTH) ∧
      (∀ rid, rid ≠ (1, 2) →
        lookupAL (Part0.identify rng0
          (Part0.run rng0 Part0.init
            [Part0.Msg.identify 1 { uid := 10, name := "a", avatar := "b" }]) 2
          { uid := 20, name := "c", avatar := "d" }).rooms rid =
          lookupAL (Part0.run rng0 Part0.init
            [Part0.Msg.identify 1 { uid := 10, name := "a", avatar := "b" }]).rooms rid) ∧
      (Part0.identify rng0
        (Part0.run rng0 Part0.init
          [Part0.Msg.identify 1 { uid := 10, name := "a", avatar := "b" }]) 2
        { uid := 20, name := "c", avatar := "d" }).waitingPlayer = none)) :=
  ⟨by simp [SrvJs.run, SrvJs.stepMsg, SrvJs.identify, SrvJs.matchmake, SrvJs.init,
      SrvJs.updSock, SrvJs.emit, lookupAL, setAL],
   by simp [Part0.run, Part0.stepMsg, Part0.identify, Part0.findMatch, Part0.init,
      Part0.updSock, Part0.emit, lookupAL, setAL],
   C3_pairing_initial_state rng0 _ 1 2 20 "c" "d"
     (by simp [SrvJs.run, SrvJs.stepMsg, SrvJs.identify, SrvJs.matchmake, SrvJs.init,
        SrvJs.updSock, SrvJs.emit, lookupAL, setAL])
     _ 1 2 { uid := 20, name := "c", avatar := "d" }
     (by simp [Part0.run, Part0.stepMsg, Part0.identify, Part0.findMatch, Part0.init,
        Part0.updSock, Part0.emit, lookupAL, setAL])⟩
